import Mathlib

/-!
# Cyclone Scheme: the bump-and-pop page allocator test bed

A shallow embedding of `gc-test.c` (and of the parts of
`include/cyclone/types.h` it relies on), followed by theorems about it.

Conventions of the embedding.

* `unsigned int` values are naturals reduced modulo `UINT_MOD = 2^32`;
  `size_t` and `uintptr_t` values are naturals reduced modulo
  `WORD_MOD = 2^64` (LP64).
* `int` values are integers; an `int` operation whose mathematical result
  leaves the range of `int` is undefined in C and is reported as
  `Fault.signed_overflow`; `x % 0` is reported as `Fault.division_by_zero`.
* A pointer is the natural number of its address, `0` is `NULL`, and
  `p + n` on a `char *` is the address `p + n`.
* A function that writes through its `gc_heap *` argument takes the
  pointee and returns the updated pointee next to its C result.
-/

namespace Cyclone

/-! ## Machine integers -/

/-- Number of values of an `unsigned int`. -/
def UINT_MOD : Nat := 4294967296

/-- Number of values of a `size_t` or `uintptr_t`. -/
def WORD_MOD : Nat := 18446744073709551616

/-- Least value of an `int`. -/
def INT_MIN : Int := -2147483648

/-- Greatest value of an `int`. -/
def INT_MAX : Int := 2147483647

/-- Undefined behaviour an execution can run into. -/
inductive Fault where
  | signed_overflow
  | division_by_zero
  | out_of_bounds
  | stack_overflow
  deriving DecidableEq, Repr

/-- Result of an arithmetic operation on `int`: the mathematical value when it
is representable, a fault otherwise. -/
def int_result (x : Int) : Except Fault Int :=
  if INT_MIN ≤ x ∧ x ≤ INT_MAX then .ok x else .error .signed_overflow

/-- Conversion of an `int` value to `unsigned int`. -/
def to_unsigned (x : Int) : Nat := (x % (UINT_MOD : Int)).toNat

/-- Conversion of an `int` value to `size_t`. -/
def to_size_t (x : Int) : Nat := (x % (WORD_MOD : Int)).toNat

/-- The `int` expression `(heap_type + 1) * 32` of `init_heap_bump_n_pop`
(line 45) and of `alloc` (line 88). -/
def block_size_expr (heap_type : Int) : Except Fault Int := do
  let s ← int_result (heap_type + 1)
  int_result (s * 32)

/-! ## Alignment macros -/

/-- `GC_BLOCK_BITS` of gc-test.c. -/
def GC_BLOCK_BITS : Nat := 5

/-- `GC_BLOCK_SIZE` of gc-test.c: `1 << GC_BLOCK_BITS`. -/
def GC_BLOCK_SIZE : Nat := 1 <<< GC_BLOCK_BITS

/-- The macro `gc_align(n, bits)` of gc-test.c (line 12), for `n` of type
`size_t` or `uintptr_t`:
`((n)+(1<<(bits))-1) & (((uintptr_t)-1)-((1<<(bits))-1))`. -/
def gc_align (n bits : Nat) : Nat :=
  ((n + (1 <<< bits) - 1) % WORD_MOD) &&& ((WORD_MOD - 1) - ((1 <<< bits) - 1))

/-- The macro `gc_heap_align(n)` of gc-test.c (line 15):
`gc_align(n, GC_BLOCK_BITS)`. -/
def gc_heap_align (n : Nat) : Nat := gc_align n GC_BLOCK_BITS

namespace types_h

/-- The macro `gc_align(n, bits)` of types.h (line 112), for `n` of type
`size_t`: the mask `((unsigned int)-1)-((1<<(bits))-1)` is an `unsigned int`
and is zero-extended before the `&`. -/
def gc_align (n bits : Nat) : Nat :=
  ((n + (1 <<< bits) - 1) % WORD_MOD) &&& ((UINT_MOD - 1) - ((1 <<< bits) - 1))

/-- The macro `gc_heap_align(n)` of types.h (line 115): `gc_align(n, 5)`. -/
def gc_heap_align (n : Nat) : Nat := gc_align n 5

end types_h

/-! ## Data model -/

/-- The free-list node `struct gc_free_list_t` of types.h. -/
structure gc_free_list where
  /-- Field `unsigned int size`. -/
  size : Nat
  /-- Field `gc_free_list *next`, an address (`0` for `NULL`). -/
  next : Nat
  deriving DecidableEq, Repr

/-- Modelled from the spec: the page fields `type`, `ttl`, `remaining` and
`payload_end`, which gc-test.c reads and writes but `struct gc_heap_t` of
types.h does not declare (the spec's heap page record lists `ttl`,
`remaining` and `payload_end`). `type` holds the `int` it is assigned;
`ttl` and `remaining` are taken as `unsigned int`, the type of the declared
counters `size`, `chunk_size`, `max_size` and of the local `block_size` that
`alloc` subtracts from `remaining`; `payload_end` is a `char *` like `data`.
The other six fields are those of `struct gc_heap_t` in types.h. -/
structure gc_heap where
  /-- Field `type` (assigned from `int heap_type`). -/
  type : Int
  /-- Field `unsigned int size`. -/
  size : Nat
  /-- Field `unsigned int chunk_size`. -/
  chunk_size : Nat
  /-- Field `unsigned int max_size`. -/
  max_size : Nat
  /-- Field `ttl`. -/
  ttl : Nat
  /-- Field `remaining`: bytes of the payload not yet handed out by bumping. -/
  remaining : Nat
  /-- Field `payload_end`, an address. -/
  payload_end : Nat
  /-- Field `gc_free_list *free_list`, an address (`0` for `NULL`). -/
  free_list : Nat
  /-- Field `gc_heap *next`, an address. -/
  next : Nat
  /-- Field `char *data`, an address. -/
  data : Nat
  deriving DecidableEq, Repr

/-- Layout of `struct gc_heap_t` as the compiler sees it: the struct that
gc-test.c needs has more fields than the one types.h declares, so its size and
the offset of `data` are parameters. -/
structure gc_heap_layout where
  /-- The value of `sizeof(struct gc_heap_t)`. -/
  sizeof_gc_heap : Nat
  /-- The value of `offsetof(struct gc_heap_t, data)`. -/
  offsetof_data : Nat
  deriving DecidableEq, Repr

/-- The value of `sizeof(h->data)`, the size of a `char *`. -/
def sizeof_data : Nat := 8

/-- The macro `gc_heap_pad_size(s)` of gc-test.c (line 9):
`sizeof(struct gc_heap_t) + (s) + gc_heap_align(1)`, in `size_t`. -/
def gc_heap_pad_size (L : gc_heap_layout) (s : Nat) : Nat :=
  (L.sizeof_gc_heap + s + gc_heap_align 1) % WORD_MOD

/-! ## Operations -/

/-- The function `init_heap_bump_n_pop` of gc-test.c (lines 18-57).
`malloc n` is the outcome of the call `malloc(n)`: `none` for `NULL`, otherwise
the address of the block and the indeterminate contents found there. The
result is `NULL` (`none`) or the page pointer with the page it points to. -/
def init_heap_bump_n_pop (L : gc_heap_layout) (malloc : Nat → Option (Nat × gc_heap))
    (heap_type : Int) (size : Nat) : Except Fault (Option (Nat × gc_heap)) :=
  let padded_size := gc_heap_pad_size L size
  match malloc padded_size with
  | none => .ok none
  | some (p, g) =>
    let h0 : gc_heap :=
      { g with
        type := heap_type
        size := size % UINT_MOD
        ttl := 10
        data := gc_heap_align ((sizeof_data + (p + L.offsetof_data)) % WORD_MOD) }
    match block_size_expr heap_type with
    | .error e => .error e
    | .ok b =>
      let block_size := to_size_t b
      if heap_type < 3 then
        if block_size = 0 then .error .division_by_zero
        else
          let remaining := (size - size % block_size) % UINT_MOD
          .ok (some (p, { h0 with
            remaining := remaining
            payload_end := h0.data + remaining
            free_list := 0 }))
      else
        .ok (some (p, { h0 with remaining := 0, free_list := 0 }))

/-- The function `init_free_list` of gc-test.c (lines 61-66): its body holds
comments only, the page is left as it is. -/
def init_free_list (h : gc_heap) : gc_heap := h

/-- The function `alloc` of gc-test.c (lines 73-95). `mem` is the memory the
free-list pointers point into. The result is the returned pointer (`0` for
`NULL`) and the updated page.

Line 90, `h->data +`, is an unfinished expression, and the `return` that was
to follow it is commented out on line 91: the bump branch lowers `remaining`
and then reaches `return NULL` on line 94. -/
def alloc (mem : Nat → gc_free_list) (h : gc_heap) (heap_type : Int) :
    Except Fault (Nat × gc_heap) :=
  if h.free_list ≠ 0 then
    .ok (h.free_list, { h with free_list := (mem h.free_list).next })
  else if h.remaining ≠ 0 then
    match block_size_expr heap_type with
    | .error e => .error e
    | .ok b =>
      let block_size := to_unsigned b
      .ok (0, { h with remaining := (h.remaining + UINT_MOD - block_size) % UINT_MOD })
  else
    .ok (0, h)

/-- The page after `n` successive calls `alloc(h, heap_type)`, as `main` makes
them (lines 106-108), with the pointers they returned, latest first. -/
def alloc_calls (mem : Nat → gc_free_list) (heap_type : Int) :
    Nat → gc_heap → Except Fault (List Nat × gc_heap)
  | 0, h => .ok ([], h)
  | n + 1, h =>
    match alloc_calls mem heap_type n h with
    | .error e => .error e
    | .ok (rs, h1) =>
      match alloc mem h1 heap_type with
      | .error e => .error e
      | .ok (r, h2) => .ok (r :: rs, h2)

/-- The address list `l` is the free list that starts at pointer `p`: each
node is non-null and its `next` field points to the following one, the last
`next` being `NULL`. -/
def is_free_list (mem : Nat → gc_free_list) : Nat → List Nat → Prop
  | p, [] => p = 0
  | p, f :: rest => p = f ∧ f ≠ 0 ∧ is_free_list mem (mem f).next rest

/-- The page after the calls `alloc(h, k)` for the heap types `k` of the list,
taken in order, with the pointers they returned, latest first. -/
def alloc_seq (mem : Nat → gc_free_list) :
    List Int → gc_heap → Except Fault (List Nat × gc_heap)
  | [], h => .ok ([], h)
  | k :: ks, h =>
    match alloc mem h k with
    | .error e => .error e
    | .ok (r, h1) =>
      match alloc_seq mem ks h1 with
      | .error e => .error e
      | .ok (rs, h2) => .ok (rs ++ [r], h2)

/-! ## Object tags, headers and stack objects (types.h) -/

/-- Conversion of a 32-bit pattern to the `int` it represents (two's
complement); also the conversion of an unsigned value to `int`, which
reduces modulo `2^32`. -/
def to_int (bits : Nat) : Int :=
  if bits % UINT_MOD < 2147483648 then (bits % UINT_MOD : Nat)
  else (bits % UINT_MOD : Nat) - 4294967296

/-- Conversion of a 64-bit pattern, such as a pointer, to the `long` it
represents (two's complement). -/
def to_long (bits : Nat) : Int :=
  if bits % WORD_MOD < 9223372036854775808 then (bits % WORD_MOD : Nat)
  else (bits % WORD_MOD : Nat) - 18446744073709551616

/-- Object tag `cons_tag`. -/
def cons_tag : Int := 0
/-- Object tag `symbol_tag`. -/
def symbol_tag : Int := 1
/-- Object tag `forward_tag`. -/
def forward_tag : Int := 2
/-- Object tag `closure0_tag`. -/
def closure0_tag : Int := 3
/-- Object tag `closure1_tag`. -/
def closure1_tag : Int := 4
/-- Object tag `closure2_tag`. -/
def closure2_tag : Int := 5
/-- Object tag `closure3_tag`. -/
def closure3_tag : Int := 6
/-- Object tag `closure4_tag`. -/
def closure4_tag : Int := 7
/-- Object tag `closureN_tag`. -/
def closureN_tag : Int := 8
/-- Object tag `integer_tag`. -/
def integer_tag : Int := 9
/-- Object tag `double_tag`. -/
def double_tag : Int := 10
/-- Object tag `string_tag`. -/
def string_tag : Int := 11
/-- Object tag `primitive_tag`. -/
def primitive_tag : Int := 12
/-- Object tag `eof_tag`. -/
def eof_tag : Int := 13
/-- Object tag `port_tag`. -/
def port_tag : Int := 14
/-- Object tag `boolean_tag`. -/
def boolean_tag : Int := 15
/-- Object tag `cvar_tag`. -/
def cvar_tag : Int := 16
/-- Object tag `vector_tag`. -/
def vector_tag : Int := 17
/-- Object tag `macro_tag`. -/
def macro_tag : Int := 18

/-- All object tags that types.h defines (lines 214-232). -/
def object_tags : List Int :=
  [cons_tag, symbol_tag, forward_tag, closure0_tag, closure1_tag, closure2_tag, closure3_tag,
    closure4_tag, closureN_tag, integer_tag, double_tag, string_tag, primitive_tag, eof_tag,
    port_tag, boolean_tag, cvar_tag, vector_tag, macro_tag]

/-- Colour `gc_color_red`: memory not to be collected, such as on the stack. -/
def gc_color_red : Nat := 0

/-- Colour `gc_color_blue`: unallocated memory. -/
def gc_color_blue : Nat := 2

/-- The header `struct gc_header_type_t` of types.h. -/
structure gc_header_type where
  /-- Field `unsigned int mark`, the mark bits, of which two are needed. -/
  mark : Nat
  /-- Field `unsigned char grayed`. -/
  grayed : Nat
  deriving DecidableEq, Repr

/-- The struct `cvar_type`. -/
structure cvar_type where
  hdr : gc_header_type
  tag : Int
  /-- Field `object *pvar`, an address. -/
  pvar : Nat
  deriving DecidableEq, Repr

/-- The macro `make_cvar(n, v)` (line 263); the result is the object `n`. -/
def make_cvar (v : Nat) : cvar_type :=
  { hdr := { mark := gc_color_red, grayed := 0 }, tag := cvar_tag, pvar := v }

/-- The struct `integer_type`. -/
structure integer_type where
  hdr : gc_header_type
  tag : Int
  value : Int
  deriving DecidableEq, Repr

/-- The macro `make_int(n, v)` (line 284), for an integer value `v`: the
assignment to the `int` field `value` reduces it to the range of `int`. -/
def make_int (v : Int) : integer_type :=
  { hdr := { mark := gc_color_red, grayed := 0 }, tag := integer_tag,
    value := to_int (to_unsigned v) }

/-- The struct `double_type`, over any carrier for the values of `double`. -/
structure double_type (double : Type) where
  hdr : gc_header_type
  tag : Int
  value : double

/-- The macro `make_double(n, v)` (line 286). -/
def make_double {double : Type} (v : double) : double_type double :=
  { hdr := { mark := gc_color_red, grayed := 0 }, tag := double_tag, value := v }

/-- The struct `string_type`. -/
structure string_type where
  hdr : gc_header_type
  tag : Int
  len : Int
  /-- Field `char *str`, an address. -/
  str : Nat
  deriving DecidableEq, Repr

/-- The function `strlen` of the C library, applied to a pointer to the buffer
with the bytes `s`: the number of bytes before the first zero byte. Without a
zero byte the scan leaves the buffer, which is undefined. -/
def strlen (s : List Nat) : Except Fault Nat :=
  if 0 ∈ s then .ok ((s.takeWhile (fun b => b != 0)).length % WORD_MOD)
  else .error .out_of_bounds

/-- The function `memcpy(dst, src, n)` of the C library, for a destination
block of `dst_size` bytes and a source buffer with the bytes `src`: the bytes
written to the start of the destination. Copying more than either holds is
undefined. -/
def memcpy (dst_size : Nat) (src : List Nat) (n : Nat) : Except Fault (List Nat) :=
  if n ≤ dst_size ∧ n ≤ src.length then .ok (src.take n) else .error .out_of_bounds

/-- The macro `make_string(cs, s)` (lines 296-299). `s` is the buffer the
argument points to; `alloca n` is the address of the block that `alloca(n)`
obtains, or `none` when the stack has no room for it, which is undefined. The
result is the object `cs` and the bytes of the block `cs.str` points to. -/
def make_string (alloca : Nat → Option Nat) (s : List Nat) :
    Except Fault (string_type × List Nat) :=
  match strlen s with
  | .error e => .error e
  | .ok k =>
    let len := to_int k
    match int_result (len + 1) with
    | .error e => .error e
    | .ok n =>
      match alloca (to_size_t n) with
      | none => .error .stack_overflow
      | some p =>
        match memcpy (to_size_t n) s (to_size_t n) with
        | .error e => .error e
        | .ok bytes =>
          .ok ({ hdr := { mark := gc_color_red, grayed := 0 }, tag := string_tag, len := len,
                 str := p }, bytes)

/-- The macro `make_string_with_len(cs, s, length)` (lines 300-305), for an
integer value `length`, which `int len = length` reduces to the range of
`int`; `s` and `alloca` are as in `make_string`. After the `memcpy` of `len`
bytes the terminator is written to `cs.str[len]`, which is undefined unless
`len` is an index of the block. The result is the object `cs` and the bytes of
the block `cs.str` points to. -/
def make_string_with_len (alloca : Nat → Option Nat) (s : List Nat) (length : Int) :
    Except Fault (string_type × List Nat) :=
  let len := to_int (to_unsigned length)
  match int_result (len + 1) with
  | .error e => .error e
  | .ok n =>
    match alloca (to_size_t n) with
    | none => .error .stack_overflow
    | some p =>
      match memcpy (to_size_t n) s (to_size_t len) with
      | .error e => .error e
      | .ok bytes =>
        if 0 ≤ len ∧ len.toNat < to_size_t n then
          .ok ({ hdr := { mark := gc_color_red, grayed := 0 }, tag := string_tag, len := len,
                 str := p }, bytes ++ [0])
        else .error .out_of_bounds

/-- The macro `make_string_noalloc(cs, s, length)` (lines 306-308), for the
pointer `s` and an integer value `length`, which the assignment to the `int`
field `len` reduces to the range of `int`. -/
def make_string_noalloc (s : Nat) (length : Int) : string_type :=
  { hdr := { mark := gc_color_red, grayed := 0 }, tag := string_tag,
    len := to_int (to_unsigned length), str := s }

/-- The struct `port_type`. -/
structure port_type where
  hdr : gc_header_type
  tag : Int
  /-- Field `FILE *fp`, an address. -/
  fp : Nat
  mode : Int
  deriving DecidableEq, Repr

/-- The macro `make_port(p, f, m)` (line 320), for the pointer `f` and an
integer value `m`, which the assignment to the `int` field `mode` reduces to the
range of `int`. -/
def make_port (f : Nat) (m : Int) : port_type :=
  { hdr := { mark := gc_color_red, grayed := 0 }, tag := port_tag, fp := f,
    mode := to_int (to_unsigned m) }

/-- The struct `vector_type`. -/
structure vector_type where
  hdr : gc_header_type
  tag : Int
  num_elt : Int
  /-- Field `object *elts`, an address. -/
  elts : Nat
  deriving DecidableEq, Repr

/-- The macro `make_empty_vector(v)` (line 327). -/
def make_empty_vector : vector_type :=
  { hdr := { mark := gc_color_red, grayed := 0 }, tag := vector_tag, num_elt := 0, elts := 0 }

/-- The struct `cons_type`. -/
structure cons_type where
  hdr : gc_header_type
  tag : Int
  cons_car : Nat
  cons_cdr : Nat
  deriving DecidableEq, Repr

/-- The macro `make_cons(n, a, d)` (lines 365-366). -/
def make_cons (a d : Nat) : cons_type :=
  { hdr := { mark := gc_color_red, grayed := 0 }, tag := cons_tag, cons_car := a, cons_cdr := d }

/-- The struct `macro_type`. -/
structure macro_type where
  hdr : gc_header_type
  tag : Int
  /-- Field `function_type fn`, an address. -/
  fn : Nat
  num_args : Int
  deriving DecidableEq, Repr

/-- The struct `closure0_type`. -/
structure closure0_type where
  hdr : gc_header_type
  tag : Int
  /-- Field `function_type fn`, an address. -/
  fn : Nat
  num_args : Int
  deriving DecidableEq, Repr

/-- The struct `closure1_type`. -/
structure closure1_type where
  hdr : gc_header_type
  tag : Int
  /-- Field `function_type fn`, an address. -/
  fn : Nat
  num_args : Int
  elt1 : Nat
  deriving DecidableEq, Repr

/-- The struct `closure2_type`. -/
structure closure2_type where
  hdr : gc_header_type
  tag : Int
  /-- Field `function_type fn`, an address. -/
  fn : Nat
  num_args : Int
  elt1 : Nat
  elt2 : Nat
  deriving DecidableEq, Repr

/-- The struct `closure3_type`. -/
structure closure3_type where
  hdr : gc_header_type
  tag : Int
  /-- Field `function_type fn`, an address. -/
  fn : Nat
  num_args : Int
  elt1 : Nat
  elt2 : Nat
  elt3 : Nat
  deriving DecidableEq, Repr

/-- The struct `closure4_type`. -/
structure closure4_type where
  hdr : gc_header_type
  tag : Int
  /-- Field `function_type fn`, an address. -/
  fn : Nat
  num_args : Int
  elt1 : Nat
  elt2 : Nat
  elt3 : Nat
  elt4 : Nat
  deriving DecidableEq, Repr

/-- The macro `mmacro(c, f)` (line 387). -/
def mmacro (f : Nat) : macro_type :=
  { hdr := { mark := gc_color_red, grayed := 0 }, tag := macro_tag, fn := f, num_args := -1 }

/-- The macro `mclosure0(c, f)` (line 388). -/
def mclosure0 (f : Nat) : closure0_type :=
  { hdr := { mark := gc_color_red, grayed := 0 }, tag := closure0_tag, fn := f, num_args := -1 }

/-- The macro `mclosure1(c, f, a)` (lines 389-390). -/
def mclosure1 (f a : Nat) : closure1_type :=
  { hdr := { mark := gc_color_red, grayed := 0 }, tag := closure1_tag, fn := f, num_args := -1,
    elt1 := a }

/-- The macro `mclosure2(c, f, a1, a2)` (lines 391-392). -/
def mclosure2 (f a1 a2 : Nat) : closure2_type :=
  { hdr := { mark := gc_color_red, grayed := 0 }, tag := closure2_tag, fn := f, num_args := -1,
    elt1 := a1, elt2 := a2 }

/-- The macro `mclosure3(c, f, a1, a2, a3)` (lines 393-394). -/
def mclosure3 (f a1 a2 a3 : Nat) : closure3_type :=
  { hdr := { mark := gc_color_red, grayed := 0 }, tag := closure3_tag, fn := f, num_args := -1,
    elt1 := a1, elt2 := a2, elt3 := a3 }

/-- The macro `mclosure4(c, f, a1, a2, a3, a4)` (lines 395-396). -/
def mclosure4 (f a1 a2 a3 a4 : Nat) : closure4_type :=
  { hdr := { mark := gc_color_red, grayed := 0 }, tag := closure4_tag, fn := f, num_args := -1,
    elt1 := a1, elt2 := a2, elt3 := a3, elt4 := a4 }

/-- A header and tag as every stack-object constructor is to leave them: mark
red, which is one of the four values of a 2-bit colour, not grayed, and the
tag of the object type. -/
def is_red_stack_object (hdr : gc_header_type) (tag expected : Int) : Prop :=
  hdr.mark = gc_color_red ∧ hdr.mark < 4 ∧ hdr.grayed = 0 ∧ tag = expected

/-! ## Primitives (types.h) -/

/-- The struct `primitive_type` (line 409). -/
structure primitive_type where
  hdr : gc_header_type
  tag : Int
  /-- Field `const char *pname`, an address. -/
  pname : Nat
  /-- Field `function_type fn`, an address. -/
  fn : Nat
  deriving DecidableEq, Repr

/-- Static initialisation of a `primitive_type` from a brace-enclosed list
that has no inner braces: the initializers go to the scalar members in
declaration order, `hdr.mark`, `hdr.grayed`, `tag`, `pname`, `fn`, each
converted to the type of its member, and a member without an initializer is
zero. Each initializer is given by its value as a 64-bit pattern. -/
def primitive_type_init (inits : List Nat) : primitive_type :=
  { hdr := { mark := inits.getD 0 0 % UINT_MOD, grayed := inits.getD 1 0 % 256 },
    tag := to_long (inits.getD 2 0),
    pname := inits.getD 3 0,
    fn := inits.getD 4 0 }

/-- The object `name##_primitive` that the macro `defprimitive(name, pname,
fnc)` defines (lines 412-414) with the initializer
`{primitive_tag, #pname, fnc}`; `pname_literal` is the address of the string
literal `#pname` and `fnc` the address of the function. -/
def defprimitive (pname_literal fnc : Nat) : primitive_type :=
  primitive_type_init [primitive_tag.toNat, pname_literal, fnc]

/-- The macro `prim(x)` (line 416): `x && ((primitive)x)->tag == primitive_tag`,
where `obj` is the object that `x` points to. -/
def prim (x : Nat) (obj : primitive_type) : Bool :=
  x ≠ 0 && obj.tag = primitive_tag

/-! ## Immediate characters (types.h) -/

/-- Conversion of an integer value to `char`: to the range -128..127 when
`char` is signed, to 0..255 when it is not. -/
def to_char (char_signed : Bool) (v : Int) : Int :=
  if char_signed then (v + 128) % 256 - 128 else v % 256

/-- The values of a `char`. -/
def is_char (char_signed : Bool) (c : Int) : Prop :=
  if char_signed then -128 ≤ c ∧ c ≤ 127 else 0 ≤ c ∧ c ≤ 255

/-- The macro `obj_is_char(x)` (line 248):
`(unsigned long)(x) & (unsigned long)1`. -/
def obj_is_char (x : Nat) : Nat := (x % WORD_MOD) &&& 1

/-- The macro `obj_obj2char(x)` (line 249): `(char)((long)(x)>>1)`, the shift
of a negative `long` being arithmetic. -/
def obj_obj2char (char_signed : Bool) (x : Nat) : Int :=
  to_char char_signed (to_long x >>> 1)

/-- The macro `obj_char2obj(c)` (line 250): `(void *)(((c)<<1) | 1)` for a
`char` value `c`, promoted to `int`. The shift doubles the value, the `|` acts
on the two's complement pattern, and the conversion of the `int` to a pointer
extends its sign, which is how GCC defines these operations on a negative
value. -/
def obj_char2obj (c : Int) : Nat :=
  to_size_t (to_int (to_unsigned (c * 2) ||| 1))

/-- The macro `is_value_type(x)` (line 252): `obj_is_char(x)`. -/
def is_value_type (x : Nat) : Nat := obj_is_char x

/-- The macro `is_object_type(x)` (line 253): `x && !is_value_type(x)`. -/
def is_object_type (x : Nat) : Bool := x ≠ 0 && !(is_value_type x ≠ 0)

/-! ## Concrete pages used in examples -/

/-- Layout of `struct gc_heap_t` exactly as types.h declares it, on LP64:
three `unsigned int`, padding, then the pointers `free_list`, `next`, `data`
at offsets 16, 24, 32. -/
def types_h_layout : gc_heap_layout := { sizeof_gc_heap := 40, offsetof_data := 32 }

/-- Some contents for a freshly allocated, uninitialised page. -/
def stale_heap : gc_heap :=
  { type := 7, size := 5, chunk_size := 0, max_size := 0, ttl := 0, remaining := 12345,
    payload_end := 99, free_list := 57005, next := 0, data := 3 }

/-- A `malloc` that always succeeds at address `b`. -/
def malloc_at (b : Nat) : Nat → Option (Nat × gc_heap) := fun _ => some (b, stale_heap)

/-- An `alloca` on a stack that has room for 8 MiB, at address `p`. -/
def alloca_at (p : Nat) : Nat → Option Nat := fun n => if n ≤ 8388608 then some p else none

/-- A memory without free-list nodes of interest. -/
def no_nodes : Nat → gc_free_list := fun _ => { size := 0, next := 0 }

/-- The page that `main` creates with `init_heap_bump_n_pop(0, 1000)` when
`malloc` returns address 4096 and the layout is `types_h_layout`. -/
def page_1000 : gc_heap :=
  { type := 0, size := 1000, chunk_size := 0, max_size := 0, ttl := 10, remaining := 992,
    payload_end := 5152, free_list := 0, next := 0, data := 4160 }

/-- The page created by `init_heap_bump_n_pop(0, 32)` under the same
conditions: a single block of 32 bytes is left to bump. -/
def page_32 : gc_heap :=
  { type := 0, size := 32, chunk_size := 0, max_size := 0, ttl := 10, remaining := 32,
    payload_end := 4192, free_list := 0, next := 0, data := 4160 }

/-- A memory holding a two-node free list: the node at 8192 points to the
node at 8224, which ends the list. -/
def two_nodes : Nat → gc_free_list := fun a =>
  if a = 8192 then { size := 32, next := 8224 } else { size := 32, next := 0 }

/-- A page whose free list starts at 8192 and that still has 992 bytes of
bump space. -/
def page_with_free_list : gc_heap := { page_1000 with free_list := 8192 }

/-! ## Auxiliary lemmas -/

/-- Masking off the five low bits of a `w`-bit value rounds it down to a
multiple of 32. -/
theorem land_block_mask (w x : Nat) (hw : 5 ≤ w) (hx : x < 2 ^ w) :
    x &&& (2 ^ w - 1 - 31) = x / 32 * 32 := by
  apply Nat.eq_of_testBit_eq
  intro i
  have h31 : (31 : Nat) < 2 ^ w :=
    lt_of_lt_of_le (by norm_num) (Nat.pow_le_pow_right (by norm_num) hw)
  have hm : 2 ^ w - 1 - 31 = 2 ^ w - (31 + 1) := by omega
  have hb : Nat.testBit 31 i = decide (i < 5) := by
    have := Nat.testBit_two_pow_sub_one 5 i
    simpa using this
  have hs : x / 32 * 32 = (x >>> 5) <<< 5 := by
    rw [Nat.shiftLeft_eq, Nat.shiftRight_eq_div_pow]
  rw [Nat.testBit_and, hm, Nat.testBit_two_pow_sub_succ h31, hb, hs, Nat.testBit_shiftLeft,
    Nat.testBit_shiftRight]
  by_cases h5 : i < 5
  · simp [h5]
  · have h5' : 5 ≤ i := Nat.le_of_not_lt h5
    by_cases hiw : i < w
    · simp [h5, hiw, h5', Nat.add_sub_cancel' h5']
    · have : x < 2 ^ i := lt_of_lt_of_le hx (Nat.pow_le_pow_right (by norm_num) (Nat.le_of_not_lt hiw))
      simp [Nat.testBit_lt_two_pow this, Nat.add_sub_cancel' h5']

/-- Closed form of `gc_heap_align` of gc-test.c when `n + 31` fits a word. -/
theorem gc_heap_align_eq (n : Nat) (h : n + 31 < WORD_MOD) :
    gc_heap_align n = (n + 31) / 32 * 32 := by
  have hx : (n + 31) % WORD_MOD = n + 31 := Nat.mod_eq_of_lt h
  have h2 : n + 31 < 2 ^ 64 := by simpa [WORD_MOD] using h
  have := land_block_mask 64 (n + 31) (by norm_num) h2
  simp only [gc_heap_align, gc_align, GC_BLOCK_BITS]
  have e1 : n + 1 <<< 5 - 1 = n + 31 := by simp [Nat.shiftLeft_eq]
  have e2 : WORD_MOD - 1 - (1 <<< 5 - 1) = 2 ^ 64 - 1 - 31 := by simp [WORD_MOD, Nat.shiftLeft_eq]
  rw [e1, e2, hx, this]

/-- Closed form of `gc_heap_align` of types.h when `n + 31` fits an `unsigned int`. -/
theorem types_h_gc_heap_align_eq (n : Nat) (h : n + 31 < UINT_MOD) :
    types_h.gc_heap_align n = (n + 31) / 32 * 32 := by
  have hx : (n + 31) % WORD_MOD = n + 31 := Nat.mod_eq_of_lt (by simp [UINT_MOD, WORD_MOD] at *; omega)
  have h2 : n + 31 < 2 ^ 32 := by simpa [UINT_MOD] using h
  have := land_block_mask 32 (n + 31) (by norm_num) h2
  simp only [types_h.gc_heap_align, types_h.gc_align]
  have e1 : n + 1 <<< 5 - 1 = n + 31 := by simp [Nat.shiftLeft_eq]
  have e2 : UINT_MOD - 1 - (1 <<< 5 - 1) = 2 ^ 32 - 1 - 31 := by simp [UINT_MOD, Nat.shiftLeft_eq]
  rw [e1, e2, hx, this]

/-- For the heap types 0, 1, 2 the block size expression does not overflow. -/
theorem block_size_expr_small (t : Int) (h0 : 0 ≤ t) (h3 : t < 3) :
    block_size_expr t = .ok ((t + 1) * 32) := by
  interval_cases t <;> rfl

/-- The free-list branch of `alloc` (lines 81-84). -/
theorem alloc_of_free_list (mem : Nat → gc_free_list) (h : gc_heap) (t : Int)
    (hf : h.free_list ≠ 0) :
    alloc mem h t = .ok (h.free_list, { h with free_list := (mem h.free_list).next }) := by
  simp [alloc, hf]

/-- The fall-through of `alloc` (line 94) when both guards fail. -/
theorem alloc_of_full (mem : Nat → gc_free_list) (h : gc_heap) (t : Int)
    (hf : h.free_list = 0) (hr : h.remaining = 0) : alloc mem h t = .ok (0, h) := by
  simp [alloc, hf, hr]

/-- The bump branch of `alloc` (lines 85-92). -/
theorem alloc_of_bump (mem : Nat → gc_free_list) (h : gc_heap) (t b : Int)
    (hf : h.free_list = 0) (hr : h.remaining ≠ 0) (hb : block_size_expr t = .ok b) :
    alloc mem h t =
      .ok (0, { h with remaining := (h.remaining + UINT_MOD - to_unsigned b) % UINT_MOD }) := by
  simp [alloc, hf, hr, hb]

/-- Without a free list, whatever `alloc` returns is `NULL`. -/
theorem alloc_bump_null (mem : Nat → gc_free_list) (h h1 : gc_heap) (t : Int) (r : Nat)
    (hf : h.free_list = 0) (ha : alloc mem h t = .ok (r, h1)) : r = 0 := by
  unfold alloc at ha
  simp only [hf, ne_eq, not_true_eq_false, if_false] at ha
  split at ha
  · split at ha
    · cases ha
    · cases ha; rfl
  · cases ha; rfl

/-- The block sizes 32, 64, 96 are unchanged by conversion to `unsigned`. -/
theorem to_unsigned_small (t : Int) (h0 : 0 ≤ t) (h3 : t < 3) :
    to_unsigned ((t + 1) * 32) = ((t + 1) * 32).toNat := by
  interval_cases t <;> rfl

/-- The block sizes 32, 64, 96 are unchanged by conversion to `size_t`. -/
theorem to_size_t_small (t : Int) (h0 : 0 ≤ t) (h3 : t < 3) :
    to_size_t ((t + 1) * 32) = ((t + 1) * 32).toNat := by
  interval_cases t <;> rfl

/-- One bump step on a page whose `remaining` holds at least one block. -/
theorem alloc_bump_step (mem : Nat → gc_free_list) (h : gc_heap) (t : Int)
    (h0 : 0 ≤ t) (h3 : t < 3) (hf : h.free_list = 0)
    (hge : ((t + 1) * 32).toNat ≤ h.remaining) (hlt : h.remaining < UINT_MOD) :
    alloc mem h t = .ok (0, { h with remaining := h.remaining - ((t + 1) * 32).toNat }) := by
  have hr : h.remaining ≠ 0 := by
    intro hz
    rw [hz] at hge
    interval_cases t <;> simp at hge
  rw [alloc_of_bump mem h t _ hf hr (block_size_expr_small t h0 h3), to_unsigned_small t h0 h3]
  have : (h.remaining + UINT_MOD - ((t + 1) * 32).toNat) % UINT_MOD
      = h.remaining - ((t + 1) * 32).toNat := by
    unfold UINT_MOD at *
    omega
  rw [this]

/-- Bump steps on a page holding `m` whole blocks: each of the first `m` calls
takes one block off `remaining`, every later call leaves it at 0. -/
theorem alloc_calls_bump (mem : Nat → gc_free_list) (t : Int) (h0 : 0 ≤ t) (h3 : t < 3)
    (h : gc_heap) (m : Nat) (hf : h.free_list = 0)
    (hrem : h.remaining = ((t + 1) * 32).toNat * m) (hlt : h.remaining < UINT_MOD) :
    ∀ k, ∃ rs, alloc_calls mem t k h =
      .ok (rs, { h with remaining := ((t + 1) * 32).toNat * (m - k) }) := by
  intro k
  induction k with
  | zero =>
    refine ⟨[], ?_⟩
    simp only [alloc_calls, Nat.sub_zero, ← hrem]
  | succ k ih =>
    obtain ⟨rs, hrs⟩ := ih
    refine ⟨0 :: rs, ?_⟩
    by_cases hk : k < m
    · have hmk : m - k = (m - (k + 1)) + 1 := by omega
      have hle : ((t + 1) * 32).toNat * (m - k) ≤ ((t + 1) * 32).toNat * m :=
        Nat.mul_le_mul_left _ (Nat.sub_le m k)
      have hstep := alloc_bump_step mem
        { h with remaining := ((t + 1) * 32).toNat * (m - k) } t h0 h3 hf
        (by
          show ((t + 1) * 32).toNat ≤ ((t + 1) * 32).toNat * (m - k)
          rw [hmk, Nat.mul_succ]
          exact Nat.le_add_left _ _)
        (by
          show ((t + 1) * 32).toNat * (m - k) < UINT_MOD
          rw [hrem] at hlt
          exact lt_of_le_of_lt hle hlt)
      simp only [alloc_calls, hrs, hstep]
      have e : ((t + 1) * 32).toNat * (m - k) - ((t + 1) * 32).toNat
          = ((t + 1) * 32).toNat * (m - (k + 1)) := by
        rw [hmk, Nat.mul_succ, Nat.add_sub_cancel]
      rw [e]
    · have e0 : m - k = 0 := by omega
      have e1 : m - (k + 1) = 0 := by omega
      rw [e0] at hrs
      have hstep := alloc_of_full mem { h with remaining := ((t + 1) * 32).toNat * 0 } t hf rfl
      simp only [alloc_calls, hrs, hstep, e1]

/-- On an exhausted page every call returns `NULL` and changes nothing. -/
theorem alloc_calls_full (mem : Nat → gc_free_list) (t : Int) (h : gc_heap)
    (hf : h.free_list = 0) (hr : h.remaining = 0) :
    ∀ n, alloc_calls mem t n h = .ok (List.replicate n 0, h) := by
  intro n
  induction n with
  | zero => rfl
  | succ n ih => simp only [alloc_calls, ih, alloc_of_full mem h t hf hr, List.replicate_succ]

/-- The page that `init_heap_bump_n_pop` builds for a fixed-size heap type. -/
theorem init_fixed (L : gc_heap_layout) (malloc : Nat → Option (Nat × gc_heap))
    (t : Int) (size p : Nat) (g : gc_heap) (h0 : 0 ≤ t) (h3 : t < 3)
    (hm : malloc (gc_heap_pad_size L size) = some (p, g)) :
    init_heap_bump_n_pop L malloc t size = .ok (some (p,
      { g with
        type := t
        size := size % UINT_MOD
        ttl := 10
        data := gc_heap_align ((sizeof_data + (p + L.offsetof_data)) % WORD_MOD)
        remaining := (size - size % ((t + 1) * 32).toNat) % UINT_MOD
        payload_end := gc_heap_align ((sizeof_data + (p + L.offsetof_data)) % WORD_MOD)
          + (size - size % ((t + 1) * 32).toNat) % UINT_MOD
        free_list := 0 })) := by
  have hz : ((t + 1) * 32).toNat ≠ 0 := by
    interval_cases t <;> decide
  simp only [init_heap_bump_n_pop, hm, block_size_expr_small t h0 h3, h3, if_true,
    to_size_t_small t h0 h3, hz, if_false]

/-- What a successful `block_size_expr` returns. -/
theorem block_size_expr_ok (t b : Int) (h : block_size_expr t = .ok b) :
    b = (t + 1) * 32 ∧ INT_MIN ≤ b ∧ b ≤ INT_MAX := by
  unfold block_size_expr int_result at h
  by_cases h1 : INT_MIN ≤ t + 1 ∧ t + 1 ≤ INT_MAX
  · by_cases h2 : INT_MIN ≤ (t + 1) * 32 ∧ (t + 1) * 32 ≤ INT_MAX
    · simp only [h1, h2, and_self, if_true, bind, Except.bind] at h
      injection h with h
      subst h
      exact ⟨rfl, h2⟩
    · simp [h1, h2, bind, Except.bind] at h
  · simp [h1, bind, Except.bind] at h

/-- A positive block size within `int` is computed without a fault. -/
theorem block_size_expr_pos (t : Int) (h0 : 0 ≤ t) (hmax : (t + 1) * 32 ≤ INT_MAX) :
    block_size_expr t = .ok ((t + 1) * 32) := by
  unfold block_size_expr int_result
  have h1 : INT_MIN ≤ t + 1 ∧ t + 1 ≤ INT_MAX := by
    unfold INT_MIN INT_MAX at *
    constructor <;> omega
  have h2 : INT_MIN ≤ (t + 1) * 32 ∧ (t + 1) * 32 ≤ INT_MAX := by
    unfold INT_MIN INT_MAX at *
    constructor <;> omega
  simp [h1, h2, bind, Except.bind]

/-- Every page that `init_heap_bump_n_pop` returns, described field by field. -/
theorem init_page_inv (L : gc_heap_layout) (malloc : Nat → Option (Nat × gc_heap))
    (t : Int) (size p : Nat) (h : gc_heap)
    (hinit : init_heap_bump_n_pop L malloc t size = .ok (some (p, h))) :
    (∃ g, malloc (gc_heap_pad_size L size) = some (p, g)) ∧
    h.data = gc_heap_align ((sizeof_data + (p + L.offsetof_data)) % WORD_MOD) ∧
    h.free_list = 0 ∧ h.size = size % UINT_MOD ∧
    (t < 3 → ∃ b, block_size_expr t = .ok b ∧ to_size_t b ≠ 0 ∧
      h.remaining = (size - size % to_size_t b) % UINT_MOD ∧
      h.payload_end = h.data + h.remaining) ∧
    (¬ t < 3 → h.remaining = 0) := by
  unfold init_heap_bump_n_pop at hinit
  cases hm : malloc (gc_heap_pad_size L size) with
  | none => simp [hm] at hinit
  | some pg =>
    obtain ⟨p1, g⟩ := pg
    cases hb : block_size_expr t with
    | error e => simp [hm, hb] at hinit
    | ok b =>
      simp only [hm, hb] at hinit
      by_cases h3 : t < 3
      · by_cases hz : to_size_t b = 0
        · simp [h3, hz] at hinit
        · simp only [h3, if_true, hz, if_false] at hinit
          injection hinit with hinit
          injection hinit with hinit
          injection hinit with hp hh
          subst hp
          subst hh
          exact ⟨⟨g, rfl⟩, rfl, rfl, rfl, fun _ => ⟨b, rfl, hz, rfl, rfl⟩, fun hn => absurd h3 hn⟩
      · simp only [h3, if_false] at hinit
        injection hinit with hinit
        injection hinit with hinit
        injection hinit with hp hh
        subst hp
        subst hh
        exact ⟨⟨g, rfl⟩, rfl, rfl, rfl, fun hn => absurd hn h3, fun _ => rfl⟩

/-- The heap types for which `init_heap_bump_n_pop` is defined and returns a
page once `malloc` has succeeded. -/
theorem init_returns (L : gc_heap_layout) (malloc : Nat → Option (Nat × gc_heap))
    (t : Int) (size p : Nat) (g : gc_heap) (h0 : 0 ≤ t) (hmax : (t + 1) * 32 ≤ INT_MAX)
    (hm : malloc (gc_heap_pad_size L size) = some (p, g)) :
    ∃ h, init_heap_bump_n_pop L malloc t size = .ok (some (p, h)) := by
  have hz : to_size_t ((t + 1) * 32) ≠ 0 := by
    unfold to_size_t WORD_MOD
    unfold INT_MAX at hmax
    omega
  by_cases h3 : t < 3
  · simp only [init_heap_bump_n_pop, hm, block_size_expr_pos t h0 hmax, h3, if_true, hz,
      if_false]
    exact ⟨_, rfl⟩
  · simp only [init_heap_bump_n_pop, hm, block_size_expr_pos t h0 hmax, h3, if_false]
    exact ⟨_, rfl⟩

/-- Closed form of the page after any number of calls `alloc(h, t)` on a page
that `init_heap_bump_n_pop(t, size)` returned, `t < 3` and `size < 2^32`:
`remaining` counts down from `B * m` in steps of `B`, a multiple of the block
size, and stops at 0. -/
theorem alloc_calls_after_init (L : gc_heap_layout) (malloc : Nat → Option (Nat × gc_heap))
    (mem : Nat → gc_free_list) (t : Int) (size p : Nat) (h : gc_heap) (h3 : t < 3)
    (hsize : size < UINT_MOD)
    (hinit : init_heap_bump_n_pop L malloc t size = .ok (some (p, h))) :
    ∃ B m : Nat, ((t + 1) * 32 ∣ (B : Int)) ∧ h.payload_end = h.data + B * m ∧
      ∀ n, ∃ rs, alloc_calls mem t n h = .ok (rs, { h with remaining := B * (m - n) }) := by
  obtain ⟨_, _, hf, _, hfix, _⟩ := init_page_inv L malloc t size p h hinit
  obtain ⟨b, hb, hz, hrem, hpe⟩ := hfix h3
  by_cases h0 : 0 ≤ t
  · have hbs := block_size_expr_small t h0 h3
    rw [hbs] at hb
    injection hb with hb
    subst hb
    rw [to_size_t_small t h0 h3] at hrem
    have hpos : 0 < ((t + 1) * 32).toNat := by interval_cases t <;> decide
    have hle : size - size % ((t + 1) * 32).toNat ≤ size := Nat.sub_le _ _
    have hr : h.remaining = ((t + 1) * 32).toNat * (size / ((t + 1) * 32).toNat) := by
      rw [hrem, Nat.mod_eq_of_lt (lt_of_le_of_lt hle hsize)]
      have hdm := Nat.div_add_mod size ((t + 1) * 32).toNat
      omega
    have hlt : h.remaining < UINT_MOD := by
      rw [hrem]
      exact Nat.mod_lt _ (by decide)
    refine ⟨((t + 1) * 32).toNat, size / ((t + 1) * 32).toNat, ?_, ?_,
      alloc_calls_bump mem t h0 h3 h _ hf hr hlt⟩
    · rw [Int.toNat_of_nonneg (by omega)]
    · rw [hpe, hr]
  · obtain ⟨hbv, hbmin, _⟩ := block_size_expr_ok t b hb
    have hbneg : b < 0 := by
      rcases lt_trichotomy b 0 with hlt | heq | hgt
      · exact hlt
      · exact absurd (by rw [heq]; rfl) hz
      · omega
    have hbig : size < to_size_t b := by
      unfold to_size_t WORD_MOD
      unfold INT_MIN at hbmin
      unfold UINT_MOD at hsize
      omega
    have hr : h.remaining = 0 := by
      rw [hrem, Nat.mod_eq_of_lt hbig, Nat.sub_self]
      rfl
    refine ⟨0, 0, dvd_zero _, by rw [hpe, hr], ?_⟩
    intro n
    refine ⟨List.replicate n 0, ?_⟩
    rw [alloc_calls_full mem t h hf hr n]
    have : ({ h with remaining := 0 * (0 - n) } : gc_heap) = h := by
      cases h
      simp only [Nat.zero_mul]
      simp only at hr
      rw [hr]
    rw [this]

/-- The `unsigned int` mask of types.h keeps only the low 32 bits before it
rounds down to a multiple of 32. -/
theorem land_uint_block_mask (x : Nat) :
    x &&& (2 ^ 32 - 1 - 31) = x % 2 ^ 32 / 32 * 32 := by
  have hm : (2 ^ 32 - 1 - 31 : Nat) = (2 ^ 32 - 1) &&& (2 ^ 32 - 1 - 31) := by decide
  rw [hm, ← Nat.and_assoc, Nat.and_pow_two_sub_one_eq_mod]
  exact land_block_mask 32 (x % 2 ^ 32) (by norm_num) (Nat.mod_lt _ (by norm_num))

/-- Closed form of `gc_heap_align` of gc-test.c for every `n`. -/
theorem gc_heap_align_val (n : Nat) :
    gc_heap_align n = (n + 31) % WORD_MOD / 32 * 32 := by
  have h2 : (n + 31) % WORD_MOD < 2 ^ 64 := Nat.mod_lt _ (by decide)
  have := land_block_mask 64 ((n + 31) % WORD_MOD) (by norm_num) h2
  simp only [gc_heap_align, gc_align, GC_BLOCK_BITS]
  have e1 : n + 1 <<< 5 - 1 = n + 31 := by simp [Nat.shiftLeft_eq]
  have e2 : WORD_MOD - 1 - (1 <<< 5 - 1) = 2 ^ 64 - 1 - 31 := by simp [WORD_MOD, Nat.shiftLeft_eq]
  rw [e1, e2, this]

/-- Closed form of `gc_heap_align` of types.h for every `n`. -/
theorem types_h_gc_heap_align_val (n : Nat) :
    types_h.gc_heap_align n = (n + 31) % WORD_MOD % UINT_MOD / 32 * 32 := by
  simp only [types_h.gc_heap_align, types_h.gc_align]
  have e1 : n + 1 <<< 5 - 1 = n + 31 := by simp [Nat.shiftLeft_eq]
  have e2 : UINT_MOD - 1 - (1 <<< 5 - 1) = 2 ^ 32 - 1 - 31 := by simp [UINT_MOD, Nat.shiftLeft_eq]
  have e3 : UINT_MOD = 2 ^ 32 := by decide
  rw [e1, e2, land_uint_block_mask, e3]

/-- The number of bump steps of a page returned by `init_heap_bump_n_pop(t,
size)`, `t < 3` and `size < 2^32`, is `size / block_size` rounded down:
`remaining` counts down from `B * m` in steps of `B` and stops at 0, where `m`
is that quotient and `B` is positive as soon as `m` is. -/
theorem alloc_calls_after_init_count (L : gc_heap_layout)
    (malloc : Nat → Option (Nat × gc_heap)) (mem : Nat → gc_free_list) (t : Int)
    (size p : Nat) (h : gc_heap) (h3 : t < 3) (hsize : size < UINT_MOD)
    (hinit : init_heap_bump_n_pop L malloc t size = .ok (some (p, h))) :
    h.free_list = 0 ∧
    ∃ B : Nat, (0 < ((size : Int) / ((t + 1) * 32)).toNat → 0 < B) ∧
      ∀ n, ∃ rs, alloc_calls mem t n h = .ok (rs,
        { h with remaining := B * (((size : Int) / ((t + 1) * 32)).toNat - n) }) := by
  obtain ⟨_, _, hf, _, hfix, _⟩ := init_page_inv L malloc t size p h hinit
  obtain ⟨b, hb, hz, hrem, hpe⟩ := hfix h3
  refine ⟨hf, ?_⟩
  by_cases h0 : 0 ≤ t
  · have hbs := block_size_expr_small t h0 h3
    rw [hbs] at hb
    injection hb with hb
    subst hb
    rw [to_size_t_small t h0 h3] at hrem
    have hpos : 0 < ((t + 1) * 32).toNat := by interval_cases t <;> decide
    have hle : size - size % ((t + 1) * 32).toNat ≤ size := Nat.sub_le _ _
    have hm : ((size : Int) / ((t + 1) * 32)).toNat = size / ((t + 1) * 32).toNat := by
      interval_cases t <;> simp <;> omega
    have hr : h.remaining = ((t + 1) * 32).toNat * (size / ((t + 1) * 32).toNat) := by
      rw [hrem, Nat.mod_eq_of_lt (lt_of_le_of_lt hle hsize)]
      have hdm := Nat.div_add_mod size ((t + 1) * 32).toNat
      omega
    have hlt : h.remaining < UINT_MOD := by
      rw [hrem]
      exact Nat.mod_lt _ (by decide)
    rw [hm]
    exact ⟨((t + 1) * 32).toNat, fun _ => hpos, alloc_calls_bump mem t h0 h3 h _ hf hr hlt⟩
  · obtain ⟨hbv, hbmin, _⟩ := block_size_expr_ok t b hb
    have hbneg : b < 0 := by
      rcases lt_trichotomy b 0 with hlt | heq | hgt
      · exact hlt
      · exact absurd (by rw [heq]; rfl) hz
      · omega
    have hbig : size < to_size_t b := by
      unfold to_size_t WORD_MOD
      unfold INT_MIN at hbmin
      unfold UINT_MOD at hsize
      omega
    have hr : h.remaining = 0 := by
      rw [hrem, Nat.mod_eq_of_lt hbig, Nat.sub_self]
      rfl
    have hm : ((size : Int) / ((t + 1) * 32)).toNat = 0 := by
      rw [← hbv]
      exact Int.toNat_of_nonpos (Int.ediv_nonpos (Int.ofNat_nonneg size) (le_of_lt hbneg))
    rw [hm]
    refine ⟨0, fun hlt => absurd hlt (lt_irrefl 0), ?_⟩
    intro n
    refine ⟨List.replicate n 0, ?_⟩
    rw [alloc_calls_full mem t h hf hr n]
    have : ({ h with remaining := 0 * (0 - n) } : gc_heap) = h := by
      cases h
      simp only [Nat.zero_mul]
      simp only at hr
      rw [hr]
    rw [this]

/-- On an exhausted page every sequence of calls, whatever the heap types
passed, returns `NULL` each time and changes nothing. -/
theorem alloc_seq_full (mem : Nat → gc_free_list) (h : gc_heap)
    (hf : h.free_list = 0) (hr : h.remaining = 0) :
    ∀ ks, alloc_seq mem ks h = .ok (List.replicate ks.length 0, h) := by
  intro ks
  induction ks with
  | nil => rfl
  | cons k ks ih =>
    simp only [alloc_seq, alloc_of_full mem h k hf hr, ih, List.length_cons]
    rw [List.replicate_succ']

/-- Every object tag of types.h lies between 0 and 18. -/
theorem object_tags_range (t : Int) (ht : t ∈ object_tags) : 0 ≤ t ∧ t ≤ 18 := by
  have hall : ∀ u ∈ object_tags, 0 ≤ u ∧ u ≤ 18 := by decide
  exact hall t ht

/-- What a `make_string` that returns has built. -/
theorem make_string_ok (alloca : Nat → Option Nat) (s : List Nat) (o : string_type)
    (buf : List Nat) (h : make_string alloca s = .ok (o, buf)) :
    o.hdr = { mark := gc_color_red, grayed := 0 } ∧ o.tag = string_tag := by
  unfold make_string at h
  split at h
  · cases h
  · dsimp only at h
    split at h
    · cases h
    · split at h
      · cases h
      · split at h
        · cases h
        · injection h with h
          injection h with h1 _
          subst h1
          exact ⟨rfl, rfl⟩

/-- What a `make_string_with_len` that returns has built: the length it
stores is not negative. -/
theorem make_string_with_len_ok (alloca : Nat → Option Nat) (s : List Nat) (length : Int)
    (o : string_type) (buf : List Nat)
    (h : make_string_with_len alloca s length = .ok (o, buf)) :
    o.hdr = { mark := gc_color_red, grayed := 0 } ∧ o.tag = string_tag ∧ 0 ≤ o.len := by
  unfold make_string_with_len at h
  dsimp only at h
  split at h
  · cases h
  · split at h
    · cases h
    · split at h
      · cases h
      · split at h
        · rename_i hidx
          injection h with h
          injection h with h1 _
          subst h1
          exact ⟨rfl, rfl, hidx.1⟩
        · cases h

/-- A buffer with a zero byte has its first zero byte inside it. -/
theorem takeWhile_nonzero_length_lt (s : List Nat) (h : 0 ∈ s) :
    (s.takeWhile (fun b => b != 0)).length < s.length := by
  induction s with
  | nil => simp at h
  | cons a t ih =>
    by_cases ha : a = 0
    · subst ha
      simp [List.takeWhile]
    · have ht : 0 ∈ t := by
        rcases List.mem_cons.mp h with h0 | h0
        · exact absurd h0.symm ha
        · exact h0
      have hne : (a != 0) = true := by simpa using ha
      simp only [List.takeWhile, hne, List.length_cons]
      exact Nat.succ_lt_succ (ih ht)

/-- The length that `strlen` finds is the index of a byte of the buffer. -/
theorem strlen_lt_length (s : List Nat) (k : Nat) (h : strlen s = .ok k) : k < s.length := by
  unfold strlen at h
  split at h
  · rename_i hz
    injection h with h
    have := takeWhile_nonzero_length_lt s hz
    have hle := Nat.mod_le (s.takeWhile (fun b => b != 0)).length WORD_MOD
    omega
  · cases h

/-- Reducing an `int` value to the range of `int` leaves it as it is. -/
theorem to_int_to_unsigned (x : Int) (hlo : INT_MIN ≤ x) (hhi : x ≤ INT_MAX) :
    to_int (to_unsigned x) = x := by
  unfold to_int to_unsigned UINT_MOD
  unfold INT_MIN at hlo
  unfold INT_MAX at hhi
  split <;> omega

/-- An `int` computation within range returns its value. -/
theorem int_result_ok (x : Int) (hlo : INT_MIN ≤ x) (hhi : x ≤ INT_MAX) :
    int_result x = .ok x := by
  simp [int_result, hlo, hhi]

/-- The 32-bit pattern of an `int` is at most `INT_MAX` and at least
`INT_MIN`. -/
theorem to_int_range (bits : Nat) : INT_MIN ≤ to_int bits ∧ to_int bits ≤ INT_MAX := by
  unfold to_int INT_MIN INT_MAX
  have hlt : bits % UINT_MOD < 4294967296 := Nat.mod_lt _ (by decide)
  split <;> constructor <;> omega

/-- Tagging and untagging a signed `char`. -/
theorem obj_char_roundtrip_signed (c : Int) (hlo : -128 ≤ c) (hhi : c ≤ 127) :
    obj_obj2char true (obj_char2obj c) = c ∧ obj_is_char (obj_char2obj c) = 1 := by
  interval_cases c <;> exact ⟨by decide, by decide⟩

/-- Tagging and untagging an unsigned `char`. -/
theorem obj_char_roundtrip_unsigned (c : Int) (hlo : 0 ≤ c) (hhi : c ≤ 255) :
    obj_obj2char false (obj_char2obj c) = c ∧ obj_is_char (obj_char2obj c) = 1 := by
  interval_cases c <;> exact ⟨by decide, by decide⟩

/-- The value of `obj_is_char(x)` is the least significant bit of `x`. -/
theorem obj_is_char_eq_mod_two (x : Nat) : obj_is_char x = x % 2 := by
  unfold obj_is_char
  rw [Nat.and_one_is_mod]
  exact Nat.mod_mod_of_dvd x (by decide)

/-! ## The allocation scenario of `main` -/

/-- C1 (as stated, refuted): on the page of `init_heap_bump_n_pop(0, 1000)` the
four calls `alloc(h, 0)` all return `NULL` and leave `remaining = 864`, so it is
not the case that the first three return non-null 32-aligned blocks and the
fourth returns `NULL` because the page is used up. -/
theorem c1_three_blocks_then_null_refuted :
    init_heap_bump_n_pop types_h_layout (malloc_at 4096) 0 1000 = .ok (some (4096, page_1000)) ∧
    alloc_calls no_nodes 0 4 page_1000 = .ok ([0, 0, 0, 0], { page_1000 with remaining := 864 }) ∧
    ¬ ∃ r1 r2 r3 r4 h4, alloc_calls no_nodes 0 4 page_1000 = .ok ([r4, r3, r2, r1], h4) ∧
        (r1 ≠ 0 ∧ r1 % 32 = 0) ∧ (r2 ≠ 0 ∧ r2 % 32 = 0) ∧ (r3 ≠ 0 ∧ r3 % 32 = 0) ∧ r4 = 0 := by
  have hev : alloc_calls no_nodes 0 4 page_1000
      = .ok ([0, 0, 0, 0], { page_1000 with remaining := 864 }) := rfl
  refine ⟨rfl, hev, ?_⟩
  rintro ⟨r1, r2, r3, r4, h4, hc, ⟨hr1, _⟩, _⟩
  rw [hev] at hc
  injection hc with hc
  injection hc with hl _
  simp only [List.cons.injEq] at hl
  exact hr1 hl.2.2.2.1.symm

/-- C1 (amended): the page of `init_heap_bump_n_pop(0, 1000)` starts with
`remaining = 992 = 31 * 32` and an empty free list; each of the first 31 calls
`alloc(h, 0)` lowers `remaining` by 32 (896 before the fourth call, 864 after
it), and once `remaining` is 0, after 31 calls, `alloc(h, 0)` returns `NULL` and
leaves the page unchanged. -/
theorem c1_page_1000_holds_31_blocks (L : gc_heap_layout)
    (malloc : Nat → Option (Nat × gc_heap)) (mem : Nat → gc_free_list) (p : Nat) (g : gc_heap)
    (hm : malloc (gc_heap_pad_size L 1000) = some (p, g)) :
    ∃ h, init_heap_bump_n_pop L malloc 0 1000 = .ok (some (p, h)) ∧
      h.remaining = 992 ∧ h.free_list = 0 ∧
      (∀ k, k ≤ 31 → ∃ rs, alloc_calls mem 0 k h = .ok (rs, { h with remaining := 992 - 32 * k })) ∧
      (∃ rs, alloc_calls mem 0 3 h = .ok (rs, { h with remaining := 896 })) ∧
      (∃ rs, alloc_calls mem 0 4 h = .ok (rs, { h with remaining := 864 })) ∧
      (∃ rs, alloc_calls mem 0 31 h = .ok (rs, { h with remaining := 0 })) ∧
      alloc mem { h with remaining := 0 } 0 = .ok (0, { h with remaining := 0 }) := by
  obtain ⟨h, hinit, hrem, hf⟩ : ∃ h, init_heap_bump_n_pop L malloc 0 1000 = .ok (some (p, h)) ∧
      h.remaining = 992 ∧ h.free_list = 0 :=
    ⟨_, init_fixed L malloc 0 1000 p g (by decide) (by decide) hm, rfl, rfl⟩
  have key : ∀ k, k ≤ 31 → ∃ rs,
      alloc_calls mem 0 k h = .ok (rs, { h with remaining := 992 - 32 * k }) := by
    intro k hk
    obtain ⟨rs, hrs⟩ := alloc_calls_bump mem 0 (by decide) (by decide) h 31 hf
      (by rw [hrem]; rfl) (by rw [hrem]; decide) k
    refine ⟨rs, ?_⟩
    rw [hrs]
    have e : ((0 + 1) * 32 : Int).toNat * (31 - k) = 992 - 32 * k := by
      have e32 : ((0 + 1) * 32 : Int).toNat = 32 := rfl
      rw [e32]
      omega
    rw [e]
  exact ⟨h, hinit, hrem, hf, key, key 3 (by decide), key 4 (by decide), key 31 (by decide),
    alloc_of_full mem _ 0 hf rfl⟩

/-- C1 (amended), instance: the page `main` builds at address 4096. -/
theorem c1_page_1000_holds_31_blocks_witness :
    malloc_at 4096 (gc_heap_pad_size types_h_layout 1000) = some (4096, stale_heap) ∧
    ∃ h, init_heap_bump_n_pop types_h_layout (malloc_at 4096) 0 1000 = .ok (some (4096, h)) ∧
      h.remaining = 992 ∧ h.free_list = 0 ∧
      (∀ k, k ≤ 31 → ∃ rs,
        alloc_calls no_nodes 0 k h = .ok (rs, { h with remaining := 992 - 32 * k })) ∧
      (∃ rs, alloc_calls no_nodes 0 3 h = .ok (rs, { h with remaining := 896 })) ∧
      (∃ rs, alloc_calls no_nodes 0 4 h = .ok (rs, { h with remaining := 864 })) ∧
      (∃ rs, alloc_calls no_nodes 0 31 h = .ok (rs, { h with remaining := 0 })) ∧
      alloc no_nodes { h with remaining := 0 } 0 = .ok (0, { h with remaining := 0 }) :=
  ⟨rfl, c1_page_1000_holds_31_blocks types_h_layout (malloc_at 4096) no_nodes 4096 stale_heap rfl⟩

/-! ## The two allocation modes -/

/-- C2: free-list mode. On a page whose free list is non-null with head `f`,
`alloc` returns `f` (for every heap type) and the page afterwards differs only
in `free_list`, which is `f->next`: when the list held the nodes `f :: rest`,
it now holds `rest`. -/
theorem c2_free_list_pop (mem : Nat → gc_free_list) (h : gc_heap) (heap_type : Int) (f : Nat)
    (hhead : h.free_list = f) (hnonnull : f ≠ 0) :
    alloc mem h heap_type = .ok (f, { h with free_list := (mem f).next }) ∧
    ∀ rest, is_free_list mem h.free_list (f :: rest) →
      is_free_list mem (mem f).next rest := by
  subst hhead
  refine ⟨alloc_of_free_list mem h heap_type hnonnull, ?_⟩
  intro rest hl
  exact hl.2.2

/-- C2, instance: popping the head 8192 of the two-node list 8192, 8224. -/
theorem c2_free_list_pop_witness :
    (page_with_free_list.free_list = 8192 ∧ (8192 : Nat) ≠ 0 ∧
      is_free_list two_nodes page_with_free_list.free_list [8192, 8224]) ∧
    (alloc two_nodes page_with_free_list 1
        = .ok (8192, { page_with_free_list with free_list := (two_nodes 8192).next }) ∧
      ∀ rest, is_free_list two_nodes page_with_free_list.free_list (8192 :: rest) →
        is_free_list two_nodes (two_nodes 8192).next rest) :=
  ⟨⟨rfl, by decide, rfl, by decide, rfl, by decide, rfl⟩,
    c2_free_list_pop two_nodes page_with_free_list 1 8192 rfl (by decide)⟩

/-- C3 (the code at the failing input): the page of
`init_heap_bump_n_pop(0, 1000)` has an empty free list and
`remaining = 992 >= 32`; the block at `payload_end - remaining` is the non-null
address 4160, yet `alloc(h, 0)` returns `NULL`, having lowered `remaining` by
exactly 32. -/
theorem c3_bump_call_returns_null :
    page_1000.free_list = 0 ∧ 32 ≤ page_1000.remaining ∧
    page_1000.payload_end - page_1000.remaining = 4160 ∧
    alloc no_nodes page_1000 0 = .ok (0, { page_1000 with remaining := 992 - 32 }) :=
  ⟨rfl, by decide, rfl, rfl⟩

/-- C4 (the code against the claim): on a page with an empty free list and
`remaining >= block_size`, for each of the heap types 0, 1, 2, `alloc` lowers
`remaining` by `block_size` and returns `NULL`: it fails although bump space
for the request is there. -/
theorem c4_bump_space_present_alloc_fails (mem : Nat → gc_free_list) (h : gc_heap)
    (heap_type : Int) (h0 : 0 ≤ heap_type) (h3 : heap_type < 3) (hempty : h.free_list = 0)
    (hge : ((heap_type + 1) * 32).toNat ≤ h.remaining) (hlt : h.remaining < UINT_MOD) :
    alloc mem h heap_type
      = .ok (0, { h with remaining := h.remaining - ((heap_type + 1) * 32).toNat }) :=
  alloc_bump_step mem h heap_type h0 h3 hempty hge hlt

/-- C4, instance: a page with `remaining = 992 >= 96` and heap type 2. -/
theorem c4_bump_space_present_alloc_fails_witness :
    ((0 : Int) ≤ 2 ∧ (2 : Int) < 3 ∧ page_1000.free_list = 0 ∧
      (((2 : Int) + 1) * 32).toNat ≤ page_1000.remaining ∧ page_1000.remaining < UINT_MOD) ∧
    alloc no_nodes page_1000 2
      = .ok (0, { page_1000 with
          remaining := page_1000.remaining - (((2 : Int) + 1) * 32).toNat }) :=
  ⟨⟨by decide, by decide, rfl, by decide, by decide⟩,
    c4_bump_space_present_alloc_fails no_nodes page_1000 2 (by decide) (by decide) rfl
      (by decide) (by decide)⟩

/-- C5 (as stated, refuted): `page_32` has an empty free list and
`0 < remaining = 32 < 64`; the call `alloc(h, 1)` returns `NULL` but does not
leave the page unchanged: `remaining` wraps around to `2^32 - 32`. -/
theorem c5_short_remaining_is_changed :
    init_heap_bump_n_pop types_h_layout (malloc_at 4096) 0 32 = .ok (some (4096, page_32)) ∧
    page_32.free_list = 0 ∧ 0 < page_32.remaining ∧ page_32.remaining < (1 + 1) * 32 ∧
    alloc no_nodes page_32 1 = .ok (0, { page_32 with remaining := 4294967264 }) ∧
    alloc no_nodes page_32 1 ≠ .ok (0, page_32) := by
  refine ⟨rfl, rfl, by decide, by decide, rfl, ?_⟩
  intro hc
  have hev : alloc no_nodes page_32 1 = .ok (0, { page_32 with remaining := 4294967264 }) := rfl
  rw [hev] at hc
  injection hc with hc
  injection hc with _ hp
  have hr := congrArg gc_heap.remaining hp
  exact absurd hr (by decide)

/-- C5 (amended): on a page with an empty free list and `remaining = 0`,
`alloc` returns `NULL` for every heap type and leaves the page, all fields
included, as it was. -/
theorem c5_exhausted_page_fails_cleanly (mem : Nat → gc_free_list) (h : gc_heap)
    (heap_type : Int) (hempty : h.free_list = 0) (hzero : h.remaining = 0) :
    alloc mem h heap_type = .ok (0, h) :=
  alloc_of_full mem h heap_type hempty hzero

/-- C5 (amended), instance: the page of `main` once its bump space is used up. -/
theorem c5_exhausted_page_fails_cleanly_witness :
    ({ page_1000 with remaining := 0 } : gc_heap).free_list = 0 ∧
    ({ page_1000 with remaining := 0 } : gc_heap).remaining = 0 ∧
    alloc no_nodes { page_1000 with remaining := 0 } 0
      = .ok (0, { page_1000 with remaining := 0 }) :=
  ⟨rfl, rfl, c5_exhausted_page_fails_cleanly no_nodes { page_1000 with remaining := 0 } 0 rfl rfl⟩

/-- C6: free-list blocks come first. On a page with a non-null free list,
whatever its `remaining` and whatever the heap type, `alloc` returns the head of
the free list and changes no field but `free_list`: `remaining`,
`payload_end`, `data` and `size` keep their values. -/
theorem c6_free_list_preferred (mem : Nat → gc_free_list) (h : gc_heap) (heap_type : Int)
    (hnonnull : h.free_list ≠ 0) :
    ∃ h1, alloc mem h heap_type = .ok (h.free_list, h1) ∧
      h1 = { h with free_list := (mem h.free_list).next } ∧
      h1.remaining = h.remaining ∧ h1.payload_end = h.payload_end ∧
      h1.data = h.data ∧ h1.size = h.size :=
  ⟨_, alloc_of_free_list mem h heap_type hnonnull, rfl, rfl, rfl, rfl, rfl⟩

/-- C6, instance: a page with a free list and `remaining = 992 >= 32`. -/
theorem c6_free_list_preferred_witness :
    (page_with_free_list.free_list ≠ 0 ∧ 32 ≤ page_with_free_list.remaining) ∧
    ∃ h1, alloc two_nodes page_with_free_list 0 = .ok (page_with_free_list.free_list, h1) ∧
      h1 = { page_with_free_list with
        free_list := (two_nodes page_with_free_list.free_list).next } ∧
      h1.remaining = page_with_free_list.remaining ∧
      h1.payload_end = page_with_free_list.payload_end ∧
      h1.data = page_with_free_list.data ∧ h1.size = page_with_free_list.size :=
  ⟨⟨by decide, by decide⟩, c6_free_list_preferred two_nodes page_with_free_list 0 (by decide)⟩

/-! ## Page creation -/

/-- C7 (as stated, refuted): for `heap_type = 0` and `size = 2^32` the page has
`size = 0` and `remaining = 0`, not `2^32`, because both fields are
`unsigned int`; for `heap_type = -1` the block size is 0 and `size % block_size`
is undefined, so no page is returned. -/
theorem c7_size_truncated_or_undefined :
    (∃ h, init_heap_bump_n_pop types_h_layout (malloc_at 4096) 0 4294967296
        = .ok (some (4096, h)) ∧
      h.size ≠ 4294967296 ∧ h.remaining ≠ 4294967296 - 4294967296 % 32) ∧
    init_heap_bump_n_pop types_h_layout (malloc_at 4096) (-1) 1000
      = .error .division_by_zero :=
  ⟨⟨_, rfl, by decide, by decide⟩, rfl⟩

/-- C7 (amended): for every heap type 0, 1, 2 and every `size < 2^32` for which
`malloc` succeeds, `init_heap_bump_n_pop` returns a page with `free_list = NULL`,
`size = size`, `remaining = size - size % block_size` with
`block_size = (heap_type + 1) * 32`, which is the largest multiple of
`block_size` not exceeding `size`, and `payload_end = data + remaining`. -/
theorem c7_new_page_in_bump_mode (L : gc_heap_layout) (malloc : Nat → Option (Nat × gc_heap))
    (heap_type : Int) (size p : Nat) (g : gc_heap) (h0 : 0 ≤ heap_type) (h3 : heap_type < 3)
    (hsize : size < UINT_MOD) (hm : malloc (gc_heap_pad_size L size) = some (p, g)) :
    ∃ h, init_heap_bump_n_pop L malloc heap_type size = .ok (some (p, h)) ∧
      h.free_list = 0 ∧ h.size = size ∧
      h.remaining = size - size % ((heap_type + 1) * 32).toNat ∧
      h.payload_end = h.data + h.remaining ∧
      ((heap_type + 1) * 32).toNat ∣ h.remaining ∧ h.remaining ≤ size ∧
      ∀ m, ((heap_type + 1) * 32).toNat ∣ m → m ≤ size → m ≤ h.remaining := by
  have hpos : 0 < ((heap_type + 1) * 32).toNat := by interval_cases heap_type <;> decide
  have hle : size - size % ((heap_type + 1) * 32).toNat ≤ size := Nat.sub_le _ _
  have hr : (size - size % ((heap_type + 1) * 32).toNat) % UINT_MOD
      = size - size % ((heap_type + 1) * 32).toNat :=
    Nat.mod_eq_of_lt (lt_of_le_of_lt hle hsize)
  refine ⟨_, init_fixed L malloc heap_type size p g h0 h3 hm, rfl, Nat.mod_eq_of_lt hsize, hr,
    rfl, ?_, ?_, ?_⟩
  · show _ ∣ (size - size % ((heap_type + 1) * 32).toNat) % UINT_MOD
    rw [hr]
    exact Nat.dvd_sub_mod size
  · show (size - size % ((heap_type + 1) * 32).toNat) % UINT_MOD ≤ size
    rw [hr]
    exact hle
  · intro m hdvd hms
    show m ≤ (size - size % ((heap_type + 1) * 32).toNat) % UINT_MOD
    rw [hr]
    obtain ⟨q, rfl⟩ := hdvd
    have hq : q ≤ size / ((heap_type + 1) * 32).toNat := by
      rw [Nat.le_div_iff_mul_le hpos, Nat.mul_comm]
      exact hms
    have hdm := Nat.div_add_mod size ((heap_type + 1) * 32).toNat
    have hmul := Nat.mul_le_mul_left ((heap_type + 1) * 32).toNat hq
    omega

/-- C7 (amended), instance: `init_heap_bump_n_pop(0, 1000)` as called by `main`. -/
theorem c7_new_page_in_bump_mode_witness :
    ((0 : Int) ≤ 0 ∧ (0 : Int) < 3 ∧ 1000 < UINT_MOD ∧
      malloc_at 4096 (gc_heap_pad_size types_h_layout 1000) = some (4096, stale_heap)) ∧
    ∃ h, init_heap_bump_n_pop types_h_layout (malloc_at 4096) 0 1000 = .ok (some (4096, h)) ∧
      h.free_list = 0 ∧ h.size = 1000 ∧
      h.remaining = 1000 - 1000 % (((0 : Int) + 1) * 32).toNat ∧
      h.payload_end = h.data + h.remaining ∧
      (((0 : Int) + 1) * 32).toNat ∣ h.remaining ∧ h.remaining ≤ 1000 ∧
      ∀ m, (((0 : Int) + 1) * 32).toNat ∣ m → m ≤ 1000 → m ≤ h.remaining :=
  ⟨⟨by decide, by decide, by decide, rfl⟩,
    c7_new_page_in_bump_mode types_h_layout (malloc_at 4096) 0 1000 4096 stale_heap
      (by decide) (by decide) (by decide) rfl⟩

/-- C8 (as stated, refuted): `init_heap_bump_n_pop(2, 2^32 + 32)` returns a page
whose `remaining`, an `unsigned int`, is 32, not a multiple of the block size
96; the call `alloc(h, 2)` then wraps `remaining` around to `2^32 - 64`, which
is larger than before and larger than the whole payload. -/
theorem c8_remaining_wraps_on_large_page :
    ∃ h h1, init_heap_bump_n_pop types_h_layout (malloc_at 4096) 2 4294967328
        = .ok (some (4096, h)) ∧
      ¬ (96 ∣ h.remaining) ∧
      alloc no_nodes h 2 = .ok (0, h1) ∧
      h.remaining < h1.remaining ∧ h1.payload_end < h1.data + h1.remaining :=
  ⟨_, _, rfl, by decide, rfl, by decide, by decide⟩

/-- C8 (amended): on every page that `init_heap_bump_n_pop(t, size)` returns,
`t < 3` and `size < 2^32`, and for every number `n` of calls `alloc(h, t)`: the
calls succeed, call `n + 1` leaves `remaining` less than or equal to its value
after call `n`, `remaining` is a multiple of `(t + 1) * 32`, `data` and
`payload_end` do not move, and the cursor `payload_end - remaining` lies in
`[data, payload_end]`; from some call on `remaining` is 0. -/
theorem c8_remaining_shrinks_to_zero (L : gc_heap_layout)
    (malloc : Nat → Option (Nat × gc_heap)) (mem : Nat → gc_free_list) (t : Int)
    (size p : Nat) (h : gc_heap) (h3 : t < 3) (hsize : size < UINT_MOD)
    (hinit : init_heap_bump_n_pop L malloc t size = .ok (some (p, h))) :
    (∀ n, ∃ rs hn rs1 hn1, alloc_calls mem t n h = .ok (rs, hn) ∧
      alloc_calls mem t (n + 1) h = .ok (rs1, hn1) ∧
      hn1.remaining ≤ hn.remaining ∧
      ((t + 1) * 32 ∣ (hn.remaining : Int)) ∧
      hn.data = h.data ∧ hn.payload_end = h.payload_end ∧
      hn.remaining ≤ hn.payload_end ∧
      hn.data ≤ hn.payload_end - hn.remaining ∧
      hn.payload_end - hn.remaining ≤ hn.payload_end) ∧
    ∃ m, ∀ n, m ≤ n → ∃ rs hn, alloc_calls mem t n h = .ok (rs, hn) ∧ hn.remaining = 0 := by
  obtain ⟨B, m, hdvd, hpe, hcalls⟩ := alloc_calls_after_init L malloc mem t size p h h3 hsize hinit
  constructor
  · intro n
    obtain ⟨rs, hrs⟩ := hcalls n
    obtain ⟨rs1, hrs1⟩ := hcalls (n + 1)
    have hmono : B * (m - (n + 1)) ≤ B * (m - n) := Nat.mul_le_mul_left B (by omega)
    have hbound : B * (m - n) ≤ B * m := Nat.mul_le_mul_left B (Nat.sub_le m n)
    refine ⟨rs, _, rs1, _, hrs, hrs1, hmono, ?_, rfl, rfl, ?_, ?_, Nat.sub_le _ _⟩
    · show (t + 1) * 32 ∣ ((B * (m - n) : Nat) : Int)
      rw [Nat.cast_mul]
      exact Dvd.dvd.mul_right hdvd _
    · show B * (m - n) ≤ h.payload_end
      omega
    · show h.data ≤ h.payload_end - B * (m - n)
      omega
  · refine ⟨m, fun n hn => ?_⟩
    obtain ⟨rs, hrs⟩ := hcalls n
    refine ⟨rs, _, hrs, ?_⟩
    show B * (m - n) = 0
    rw [Nat.sub_eq_zero_of_le hn, Nat.mul_zero]

/-- C8 (amended), instance: the page of `init_heap_bump_n_pop(0, 1000)`. -/
theorem c8_remaining_shrinks_to_zero_witness :
    ((0 : Int) < 3 ∧ 1000 < UINT_MOD ∧
      init_heap_bump_n_pop types_h_layout (malloc_at 4096) 0 1000
        = .ok (some (4096, page_1000))) ∧
    ((∀ n, ∃ rs hn rs1 hn1, alloc_calls no_nodes 0 n page_1000 = .ok (rs, hn) ∧
      alloc_calls no_nodes 0 (n + 1) page_1000 = .ok (rs1, hn1) ∧
      hn1.remaining ≤ hn.remaining ∧
      (((0 : Int) + 1) * 32 ∣ (hn.remaining : Int)) ∧
      hn.data = page_1000.data ∧ hn.payload_end = page_1000.payload_end ∧
      hn.remaining ≤ hn.payload_end ∧
      hn.data ≤ hn.payload_end - hn.remaining ∧
      hn.payload_end - hn.remaining ≤ hn.payload_end) ∧
    ∃ m, ∀ n, m ≤ n → ∃ rs hn,
      alloc_calls no_nodes 0 n page_1000 = .ok (rs, hn) ∧ hn.remaining = 0) :=
  ⟨⟨by decide, by decide, rfl⟩,
    c8_remaining_shrinks_to_zero types_h_layout (malloc_at 4096) no_nodes 0 1000 4096 page_1000
      (by decide) (by decide) rfl⟩

/-! ## Alignment -/

/-- C9: `gc_heap_align` rounds up to the block granularity. For every `n` with
`n + 31` inside the machine word, `gc_heap_align(n)` is a multiple of 32 with
`n <= gc_heap_align(n) < n + 32`, hence the least multiple of 32 that is at
least `n`, and aligning twice is aligning once; the definition of types.h
gives the same value, and is idempotent too, whenever `n + 31` fits the
`unsigned int` its mask is built from. On 1, 32, 64, 96 the result is
32, 32, 64, 96. -/
theorem c9_gc_heap_align_rounds_up (n : Nat) (hn : n + 31 < WORD_MOD) :
    32 ∣ gc_heap_align n ∧ n ≤ gc_heap_align n ∧ gc_heap_align n < n + 32 ∧
    (∀ m, 32 ∣ m → n ≤ m → gc_heap_align n ≤ m) ∧
    gc_heap_align (gc_heap_align n) = gc_heap_align n ∧
    (n + 31 < UINT_MOD → types_h.gc_heap_align n = gc_heap_align n ∧
      types_h.gc_heap_align (types_h.gc_heap_align n) = types_h.gc_heap_align n) ∧
    gc_heap_align 1 = 32 ∧ gc_heap_align 32 = 32 ∧ gc_heap_align 64 = 64 ∧
    gc_heap_align 96 = 96 ∧
    types_h.gc_heap_align 1 = 32 ∧ types_h.gc_heap_align 32 = 32 ∧
    types_h.gc_heap_align 64 = 64 ∧ types_h.gc_heap_align 96 = 96 := by
  have he := gc_heap_align_eq n hn
  have hw : WORD_MOD = 18446744073709551616 := rfl
  have hu : UINT_MOD = 4294967296 := rfl
  have hidem : gc_heap_align (gc_heap_align n) = gc_heap_align n := by
    rw [he, gc_heap_align_eq _ (by omega)]
    omega
  refine ⟨?_, ?_, ?_, ?_, hidem, ?_, by decide, by decide, by decide, by decide,
    by decide, by decide, by decide, by decide⟩
  · rw [he]
    exact Dvd.intro_left _ rfl
  · omega
  · omega
  · intro m hm hnm
    obtain ⟨q, rfl⟩ := hm
    omega
  · intro h32
    have ht := types_h_gc_heap_align_eq n h32
    refine ⟨by rw [ht, he], ?_⟩
    rw [ht, types_h_gc_heap_align_eq _ (by omega)]
    omega

/-- C9, instance: 1000 is rounded up to 1024. -/
theorem c9_gc_heap_align_rounds_up_witness :
    1000 + 31 < WORD_MOD ∧
    (32 ∣ gc_heap_align 1000 ∧ 1000 ≤ gc_heap_align 1000 ∧ gc_heap_align 1000 < 1000 + 32 ∧
    (∀ m, 32 ∣ m → 1000 ≤ m → gc_heap_align 1000 ≤ m) ∧
    gc_heap_align (gc_heap_align 1000) = gc_heap_align 1000 ∧
    (1000 + 31 < UINT_MOD → types_h.gc_heap_align 1000 = gc_heap_align 1000 ∧
      types_h.gc_heap_align (types_h.gc_heap_align 1000) = types_h.gc_heap_align 1000) ∧
    gc_heap_align 1 = 32 ∧ gc_heap_align 32 = 32 ∧ gc_heap_align 64 = 64 ∧
    gc_heap_align 96 = 96 ∧
    types_h.gc_heap_align 1 = 32 ∧ types_h.gc_heap_align 32 = 32 ∧
    types_h.gc_heap_align 64 = 64 ∧ types_h.gc_heap_align 96 = 96) :=
  ⟨by decide, c9_gc_heap_align_rounds_up 1000 (by decide)⟩

/-- C10: a new page is padded by the header size and block-aligned. When
`gc_heap_pad_size(size) = sizeof(struct gc_heap_t) + size + 32` does not
overflow and `malloc` of that many bytes returns the block at `b`, every page
`init_heap_bump_n_pop` returns sits at `b` and has its `data` pointer equal to
`gc_heap_align(sizeof(h->data) + &h->data)`, a multiple of 32 at or after the
end of the field `data`, with the payload `[data, data + size)` inside
`[b, b + gc_heap_pad_size(size))`; and a page is returned for every heap type
whose block size is a positive `int`. -/
theorem c10_page_padded_and_aligned (L : gc_heap_layout)
    (malloc : Nat → Option (Nat × gc_heap)) (heap_type : Int) (size b : Nat) (g : gc_heap)
    (hfield : L.offsetof_data + sizeof_data ≤ L.sizeof_gc_heap)
    (hpad : L.sizeof_gc_heap + size + 32 < WORD_MOD)
    (hm : malloc (gc_heap_pad_size L size) = some (b, g))
    (hblock : b + gc_heap_pad_size L size ≤ WORD_MOD) :
    gc_heap_pad_size L size = L.sizeof_gc_heap + size + 32 ∧
    (∀ p h, init_heap_bump_n_pop L malloc heap_type size = .ok (some (p, h)) →
      p = b ∧ h.data = gc_heap_align (sizeof_data + (b + L.offsetof_data)) ∧
      32 ∣ h.data ∧ b + L.offsetof_data + sizeof_data ≤ h.data ∧
      b ≤ h.data ∧ h.data + size < b + gc_heap_pad_size L size) ∧
    (0 ≤ heap_type → (heap_type + 1) * 32 ≤ INT_MAX →
      ∃ h, init_heap_bump_n_pop L malloc heap_type size = .ok (some (b, h))) := by
  have hw : WORD_MOD = 18446744073709551616 := rfl
  have hsd : sizeof_data = 8 := rfl
  have hps : gc_heap_pad_size L size = L.sizeof_gc_heap + size + 32 := by
    unfold gc_heap_pad_size
    have h1 : gc_heap_align 1 = 32 := by decide
    rw [h1]
    exact Nat.mod_eq_of_lt hpad
  refine ⟨hps, ?_, fun h0 hmax => init_returns L malloc heap_type size b g h0 hmax hm⟩
  intro p h hinit
  obtain ⟨⟨g1, hm1⟩, hdata, _⟩ := init_page_inv L malloc heap_type size p h hinit
  rw [hm] at hm1
  injection hm1 with hm1
  injection hm1 with hpb _
  subst hpb
  have hfit : sizeof_data + (b + L.offsetof_data) + 31 < WORD_MOD := by omega
  have hmod : (sizeof_data + (b + L.offsetof_data)) % WORD_MOD
      = sizeof_data + (b + L.offsetof_data) := Nat.mod_eq_of_lt (by omega)
  rw [hmod] at hdata
  have he := gc_heap_align_eq _ hfit
  refine ⟨rfl, hdata, ?_, ?_, ?_, ?_⟩
  · rw [hdata, he]
    exact Dvd.intro_left _ rfl
  · omega
  · omega
  · omega

/-- C10, instance: the page of `main`, 1000 bytes at address 4096. -/
theorem c10_page_padded_and_aligned_witness :
    (types_h_layout.offsetof_data + sizeof_data ≤ types_h_layout.sizeof_gc_heap ∧
      types_h_layout.sizeof_gc_heap + 1000 + 32 < WORD_MOD ∧
      malloc_at 4096 (gc_heap_pad_size types_h_layout 1000) = some (4096, stale_heap) ∧
      4096 + gc_heap_pad_size types_h_layout 1000 ≤ WORD_MOD) ∧
    (gc_heap_pad_size types_h_layout 1000 = types_h_layout.sizeof_gc_heap + 1000 + 32 ∧
    (∀ p h, init_heap_bump_n_pop types_h_layout (malloc_at 4096) 0 1000 = .ok (some (p, h)) →
      p = 4096 ∧ h.data = gc_heap_align (sizeof_data + (4096 + types_h_layout.offsetof_data)) ∧
      32 ∣ h.data ∧ 4096 + types_h_layout.offsetof_data + sizeof_data ≤ h.data ∧
      4096 ≤ h.data ∧ h.data + 1000 < 4096 + gc_heap_pad_size types_h_layout 1000) ∧
    ((0 : Int) ≤ 0 → ((0 : Int) + 1) * 32 ≤ INT_MAX →
      ∃ h, init_heap_bump_n_pop types_h_layout (malloc_at 4096) 0 1000
        = .ok (some (4096, h)))) :=
  ⟨⟨by decide, by decide, rfl, by decide⟩,
    c10_page_padded_and_aligned types_h_layout (malloc_at 4096) 0 1000 4096 stale_heap
      (by decide) (by decide) rfl (by decide)⟩

/-! ## Object tags and stack objects -/

/-- C11 (as stated, refuted): `cons_tag` is an object tag and equals
`gc_heap_align(0) = 0`, the size of the dummy head record of a free list, under
both definitions of `gc_heap_align`. -/
theorem c11_cons_tag_is_a_block_size :
    cons_tag ∈ object_tags ∧ cons_tag = (gc_heap_align 0 : Int) ∧
    cons_tag = (types_h.gc_heap_align 0 : Int) := by
  decide

/-- C11 (amended): an object tag `t` of types.h equals a block-size multiple
`gc_heap_align(n)` only if it is `cons_tag`; when `n + 31` does not overflow
this happens exactly for `t = cons_tag = 0` and `n = 0`. So the tags 1 to 18
differ from every `gc_heap_align(n)`, and every tag differs from
`gc_heap_align(n)` for `n >= 1`. The same holds for the definition of types.h
with `n + 31` inside an `unsigned int`. -/
theorem c11_tags_meet_block_sizes_only_at_zero (t : Int) (n : Nat) (ht : t ∈ object_tags) :
    (t = (gc_heap_align n : Int) → t = cons_tag) ∧
    (t = (types_h.gc_heap_align n : Int) → t = cons_tag) ∧
    (n + 31 < WORD_MOD → (t = (gc_heap_align n : Int) ↔ t = cons_tag ∧ n = 0)) ∧
    (n + 31 < UINT_MOD → (t = (types_h.gc_heap_align n : Int) ↔ t = cons_tag ∧ n = 0)) := by
  obtain ⟨h0, h18⟩ := object_tags_range t ht
  have hc : cons_tag = 0 := rfl
  rw [hc]
  refine ⟨?_, ?_, ?_, ?_⟩
  · rw [gc_heap_align_val]
    intro h
    omega
  · rw [types_h_gc_heap_align_val]
    intro h
    omega
  · intro hn
    rw [gc_heap_align_eq n hn]
    constructor
    · intro h
      omega
    · rintro ⟨h1, h2⟩
      subst h2
      omega
  · intro hn
    rw [types_h_gc_heap_align_eq n hn]
    constructor
    · intro h
      omega
    · rintro ⟨h1, h2⟩
      subst h2
      omega

/-- C11 (amended), instance: `string_tag = 11` against the chunk size 24. -/
theorem c11_tags_meet_block_sizes_only_at_zero_witness :
    string_tag ∈ object_tags ∧
    ((string_tag = (gc_heap_align 24 : Int) → string_tag = cons_tag) ∧
    (string_tag = (types_h.gc_heap_align 24 : Int) → string_tag = cons_tag) ∧
    (24 + 31 < WORD_MOD →
      (string_tag = (gc_heap_align 24 : Int) ↔ string_tag = cons_tag ∧ 24 = 0)) ∧
    (24 + 31 < UINT_MOD →
      (string_tag = (types_h.gc_heap_align 24 : Int) ↔ string_tag = cons_tag ∧ 24 = 0))) :=
  ⟨by decide, c11_tags_meet_block_sizes_only_at_zero string_tag 24 (by decide)⟩

/-- C12: stack objects are always red. Each stack-object constructor macro of
types.h, `make_cvar`, `make_int`, `make_double`, `make_string`,
`make_string_with_len`, `make_string_noalloc`, `make_port`,
`make_empty_vector`, `make_cons`, `mmacro`, `mclosure0` to `mclosure4`, builds
for all its arguments an object whose header has `mark = gc_color_red`, which
is 0 and so inside the 2-bit colour range, and `grayed = 0`, and whose tag is
the tag constant of its type. For the two string macros, whose `alloca`,
`memcpy` and terminator write can be undefined, this holds of every object they
build, and they do build one, with the bytes of the string in its block,
whenever the length is below `INT_MAX`, the source buffer holds the bytes
copied and the stack has room; `make_string_with_len` builds no object with a
negative length. -/
theorem c12_stack_objects_are_red :
    gc_color_red = 0 ∧
    (∀ v, is_red_stack_object (make_cvar v).hdr (make_cvar v).tag cvar_tag) ∧
    (∀ v, is_red_stack_object (make_int v).hdr (make_int v).tag integer_tag) ∧
    (∀ (double : Type) (v : double),
      is_red_stack_object (make_double v).hdr (make_double v).tag double_tag) ∧
    (∀ alloca s o buf, make_string alloca s = .ok (o, buf) →
      is_red_stack_object o.hdr o.tag string_tag) ∧
    (∀ alloca s k p, strlen s = .ok k → k < 2147483647 → alloca (k + 1) = some p →
      make_string alloca s = .ok
        ({ hdr := { mark := gc_color_red, grayed := 0 }, tag := string_tag, len := k,
           str := p }, s.take (k + 1))) ∧
    (∀ alloca s length o buf, make_string_with_len alloca s length = .ok (o, buf) →
      is_red_stack_object o.hdr o.tag string_tag ∧ 0 ≤ o.len) ∧
    (∀ alloca s (n : Nat) p, n < 2147483647 → n ≤ s.length → alloca (n + 1) = some p →
      make_string_with_len alloca s n = .ok
        ({ hdr := { mark := gc_color_red, grayed := 0 }, tag := string_tag, len := n,
           str := p }, s.take n ++ [0])) ∧
    (∀ s length, is_red_stack_object (make_string_noalloc s length).hdr
      (make_string_noalloc s length).tag string_tag) ∧
    (∀ f m, is_red_stack_object (make_port f m).hdr (make_port f m).tag port_tag) ∧
    is_red_stack_object make_empty_vector.hdr make_empty_vector.tag vector_tag ∧
    (∀ a d, is_red_stack_object (make_cons a d).hdr (make_cons a d).tag cons_tag) ∧
    (∀ f, is_red_stack_object ( mmacro f).hdr ( mmacro f).tag macro_tag) ∧
    (∀ f, is_red_stack_object (mclosure0 f).hdr (mclosure0 f).tag closure0_tag) ∧
    (∀ f a, is_red_stack_object (mclosure1 f a).hdr (mclosure1 f a).tag closure1_tag) ∧
    (∀ f a1 a2, is_red_stack_object (mclosure2 f a1 a2).hdr (mclosure2 f a1 a2).tag
      closure2_tag) ∧
    (∀ f a1 a2 a3, is_red_stack_object (mclosure3 f a1 a2 a3).hdr (mclosure3 f a1 a2 a3).tag
      closure3_tag) ∧
    (∀ f a1 a2 a3 a4, is_red_stack_object (mclosure4 f a1 a2 a3 a4).hdr
      (mclosure4 f a1 a2 a3 a4).tag closure4_tag) := by
  have red : ∀ tag : Int, is_red_stack_object { mark := gc_color_red, grayed := 0 } tag tag :=
    fun _ => ⟨rfl, by decide, rfl, rfl⟩
  refine ⟨rfl, fun _ => red _, fun _ => red _, fun _ _ => red _, ?_, ?_, ?_, ?_,
    fun _ _ => red _, fun _ _ => red _, red _, fun _ _ => red _, fun _ => red _, fun _ => red _,
    fun _ _ => red _, fun _ _ _ => red _, fun _ _ _ _ => red _, fun _ _ _ _ _ => red _⟩
  · intro alloca s o buf h
    obtain ⟨hh, ht⟩ := make_string_ok alloca s o buf h
    rw [hh, ht]
    exact red _
  · intro alloca s k p hk hlt hp
    have hks := strlen_lt_length s k hk
    have hlen : to_int k = (k : Int) := by
      unfold to_int UINT_MOD
      split <;> omega
    have hok : int_result ((k : Int) + 1) = .ok ((k : Int) + 1) :=
      int_result_ok _ (by unfold INT_MIN; omega) (by unfold INT_MAX; omega)
    have hsz : to_size_t ((k : Int) + 1) = k + 1 := by
      unfold to_size_t WORD_MOD
      omega
    have hcp : memcpy (k + 1) s (k + 1) = .ok (s.take (k + 1)) := by
      unfold memcpy
      rw [if_pos ⟨Nat.le_refl _, hks⟩]
    simp only [make_string, hk, hlen, hok, hsz, hp, hcp]
  · intro alloca s length o buf h
    obtain ⟨hh, ht, hl⟩ := make_string_with_len_ok alloca s length o buf h
    refine ⟨?_, hl⟩
    rw [hh, ht]
    exact red _
  · intro alloca s n p hlt hns hp
    have hlen : to_int (to_unsigned (n : Int)) = (n : Int) :=
      to_int_to_unsigned _ (by unfold INT_MIN; omega) (by unfold INT_MAX; omega)
    have hok : int_result ((n : Int) + 1) = .ok ((n : Int) + 1) :=
      int_result_ok _ (by unfold INT_MIN; omega) (by unfold INT_MAX; omega)
    have hsz : to_size_t ((n : Int) + 1) = n + 1 := by
      unfold to_size_t WORD_MOD
      omega
    have hsn : to_size_t (n : Int) = n := by
      unfold to_size_t WORD_MOD
      omega
    have hcp : memcpy (n + 1) s n = .ok (s.take n) := by
      unfold memcpy
      rw [if_pos ⟨Nat.le_succ _, hns⟩]
    have hidx : (0 : Int) ≤ (n : Int) ∧ (n : Int).toNat < n + 1 := by
      constructor <;> omega
    simp only [make_string_with_len, hlen, hok, hsz, hsn, hp, hcp, hidx, and_self, if_true]

/-- C12, instances: `make_string` on the buffer `h`, `i`, terminator builds a
red string object of length 2 with those three bytes in its block, as does
`make_string_with_len` with length 2; with length -1 no object is built. -/
theorem c12_stack_objects_are_red_witness :
    (strlen [104, 105, 0] = .ok 2 ∧ alloca_at 7000 (2 + 1) = some 7000 ∧
      make_string_with_len (alloca_at 7000) [104, 105] (-1) = .error .out_of_bounds) ∧
    make_string (alloca_at 7000) [104, 105, 0] = .ok
      ({ hdr := { mark := gc_color_red, grayed := 0 }, tag := string_tag, len := (2 : Nat),
         str := 7000 }, [104, 105, 0]) ∧
    make_string_with_len (alloca_at 7000) [104, 105] (2 : Nat) = .ok
      ({ hdr := { mark := gc_color_red, grayed := 0 }, tag := string_tag, len := (2 : Nat),
         str := 7000 }, [104, 105, 0]) ∧
    is_red_stack_object (make_cons 1 2).hdr (make_cons 1 2).tag cons_tag :=
  ⟨⟨rfl, rfl, rfl⟩,
    c12_stack_objects_are_red.2.2.2.2.2.1 (alloca_at 7000) [104, 105, 0] 2 7000 rfl
      (by decide) rfl,
    c12_stack_objects_are_red.2.2.2.2.2.2.2.1 (alloca_at 7000) [104, 105] 2 7000
      (by decide) (by decide) rfl,
    c12_stack_objects_are_red.2.2.2.2.2.2.2.2.2.2.2.1 1 2⟩

/-! ## Fresh pages -/

/-- C14 (as stated, refuted): for `t = 0` and `size = 2^32` the quotient
`size / block_size` is `2^27`, yet the page that `init_heap_bump_n_pop` returns
has `remaining = 0` before the very first call, its `remaining` being an
`unsigned int`, and that first call already returns `NULL` without a change. -/
theorem c14_large_page_has_no_bump_steps :
    ∃ h, init_heap_bump_n_pop types_h_layout (malloc_at 4096) 0 4294967296
        = .ok (some (4096, h)) ∧
      0 < ((4294967296 : Int) / ((0 + 1) * 32)).toNat ∧
      h.remaining = 0 ∧ alloc no_nodes h 0 = .ok (0, h) :=
  ⟨_, rfl, by decide, rfl, rfl⟩

/-- C14 (amended): a fresh fixed-size page yields exactly
`floor(size / block_size)` bump steps. For every `t < 3` and `size < 2^32`, on
every page `init_heap_bump_n_pop(t, size)` returns, with
`m = floor(size / ((t + 1) * 32))`: `remaining` is non-zero before each of the
first `m` calls `alloc(h, t)`, is 0 after them, and every later call returns
`NULL` and leaves the page unchanged. For `t` in 0, 1, 2 such a page is
returned whenever `malloc` succeeds. -/
theorem c14_fresh_page_bump_steps (L : gc_heap_layout)
    (malloc : Nat → Option (Nat × gc_heap)) (mem : Nat → gc_free_list) (t : Int) (size : Nat)
    (h3 : t < 3) (hsize : size < UINT_MOD) :
    (∀ p h, init_heap_bump_n_pop L malloc t size = .ok (some (p, h)) →
      (∀ k, k < ((size : Int) / ((t + 1) * 32)).toNat →
        ∃ rs hk, alloc_calls mem t k h = .ok (rs, hk) ∧ hk.remaining ≠ 0) ∧
      (∃ rs hm, alloc_calls mem t ((size : Int) / ((t + 1) * 32)).toNat h = .ok (rs, hm) ∧
        hm.remaining = 0) ∧
      ∀ n, ((size : Int) / ((t + 1) * 32)).toNat ≤ n →
        ∃ rs hn, alloc_calls mem t n h = .ok (rs, hn) ∧ hn.remaining = 0 ∧
          alloc mem hn t = .ok (0, hn)) ∧
    (∀ p g, 0 ≤ t → malloc (gc_heap_pad_size L size) = some (p, g) →
      ∃ h, init_heap_bump_n_pop L malloc t size = .ok (some (p, h))) := by
  constructor
  · intro p h hinit
    obtain ⟨hf, B, hB, hcalls⟩ :=
      alloc_calls_after_init_count L malloc mem t size p h h3 hsize hinit
    refine ⟨?_, ?_, ?_⟩
    · intro k hk
      obtain ⟨rs, hrs⟩ := hcalls k
      refine ⟨rs, _, hrs, ?_⟩
      show B * (((size : Int) / ((t + 1) * 32)).toNat - k) ≠ 0
      exact Nat.ne_of_gt (Nat.mul_pos (hB (by omega)) (by omega))
    · obtain ⟨rs, hrs⟩ := hcalls ((size : Int) / ((t + 1) * 32)).toNat
      refine ⟨rs, _, hrs, ?_⟩
      show B * (((size : Int) / ((t + 1) * 32)).toNat - ((size : Int) / ((t + 1) * 32)).toNat) = 0
      rw [Nat.sub_self, Nat.mul_zero]
    · intro n hn
      obtain ⟨rs, hrs⟩ := hcalls n
      have hz : B * (((size : Int) / ((t + 1) * 32)).toNat - n) = 0 := by
        rw [Nat.sub_eq_zero_of_le hn, Nat.mul_zero]
      exact ⟨rs, _, hrs, hz, alloc_of_full mem _ t hf hz⟩
  · intro p g h0 hm
    exact ⟨_, init_fixed L malloc t size p g h0 h3 hm⟩

/-- C14 (amended), instance: the page of `init_heap_bump_n_pop(0, 1000)` takes
31 bump steps. -/
theorem c14_fresh_page_bump_steps_witness :
    ((0 : Int) < 3 ∧ 1000 < UINT_MOD ∧ (((1000 : Nat) : Int) / ((0 + 1) * 32)).toNat = 31 ∧
      init_heap_bump_n_pop types_h_layout (malloc_at 4096) 0 1000
        = .ok (some (4096, page_1000))) ∧
    ((∀ p h, init_heap_bump_n_pop types_h_layout (malloc_at 4096) 0 1000 = .ok (some (p, h)) →
      (∀ k, k < (((1000 : Nat) : Int) / ((0 + 1) * 32)).toNat →
        ∃ rs hk, alloc_calls no_nodes 0 k h = .ok (rs, hk) ∧ hk.remaining ≠ 0) ∧
      (∃ rs hm, alloc_calls no_nodes 0 (((1000 : Nat) : Int) / ((0 + 1) * 32)).toNat h
          = .ok (rs, hm) ∧ hm.remaining = 0) ∧
      ∀ n, (((1000 : Nat) : Int) / ((0 + 1) * 32)).toNat ≤ n →
        ∃ rs hn, alloc_calls no_nodes 0 n h = .ok (rs, hn) ∧ hn.remaining = 0 ∧
          alloc no_nodes hn 0 = .ok (0, hn)) ∧
    (∀ p g, (0 : Int) ≤ 0 →
      malloc_at 4096 (gc_heap_pad_size types_h_layout 1000) = some (p, g) →
      ∃ h, init_heap_bump_n_pop types_h_layout (malloc_at 4096) 0 1000 = .ok (some (p, h)))) :=
  ⟨⟨by decide, by decide, by decide, rfl⟩,
    c14_fresh_page_bump_steps types_h_layout (malloc_at 4096) no_nodes 0 1000
      (by decide) (by decide)⟩

/-- C15: a fresh variable-size page can never allocate. For every
`heap_type >= 3` and every `size`, every page `init_heap_bump_n_pop` returns
has `remaining = 0` and `free_list = NULL`; every call `alloc(h, k)`, for every
`k`, returns `NULL` and leaves the page unchanged, and so does every sequence of
such calls. A page is returned whenever `malloc` succeeds and
`(heap_type + 1) * 32` is within `int`. -/
theorem c15_variable_size_page_never_allocates (L : gc_heap_layout)
    (malloc : Nat → Option (Nat × gc_heap)) (mem : Nat → gc_free_list) (heap_type : Int)
    (size : Nat) (h3 : 3 ≤ heap_type) :
    (∀ p h, init_heap_bump_n_pop L malloc heap_type size = .ok (some (p, h)) →
      h.remaining = 0 ∧ h.free_list = 0 ∧
      (∀ k, alloc mem h k = .ok (0, h)) ∧
      ∀ ks, alloc_seq mem ks h = .ok (List.replicate ks.length 0, h)) ∧
    (∀ p g, (heap_type + 1) * 32 ≤ INT_MAX →
      malloc (gc_heap_pad_size L size) = some (p, g) →
      ∃ h, init_heap_bump_n_pop L malloc heap_type size = .ok (some (p, h))) := by
  constructor
  · intro p h hinit
    obtain ⟨_, _, hf, _, _, hvar⟩ := init_page_inv L malloc heap_type size p h hinit
    have hr : h.remaining = 0 := hvar (by omega)
    exact ⟨hr, hf, fun k => alloc_of_full mem h k hf hr, alloc_seq_full mem h hf hr⟩
  · intro p g hmax hm
    exact init_returns L malloc heap_type size p g (by omega) hmax hm

/-- C15, instance: `init_heap_bump_n_pop(3, 1000)` and the calls `alloc(h, 0)`,
`alloc(h, 5)`, `alloc(h, 0)`. -/
theorem c15_variable_size_page_never_allocates_witness :
    (3 : Int) ≤ 3 ∧
    (∃ h, init_heap_bump_n_pop types_h_layout (malloc_at 4096) 3 1000 = .ok (some (4096, h)) ∧
      alloc_seq no_nodes [0, 5, 0] h = .ok ([0, 0, 0], h)) ∧
    ((∀ p h, init_heap_bump_n_pop types_h_layout (malloc_at 4096) 3 1000 = .ok (some (p, h)) →
      h.remaining = 0 ∧ h.free_list = 0 ∧
      (∀ k, alloc no_nodes h k = .ok (0, h)) ∧
      ∀ ks, alloc_seq no_nodes ks h = .ok (List.replicate ks.length 0, h)) ∧
    (∀ p g, ((3 : Int) + 1) * 32 ≤ INT_MAX →
      malloc_at 4096 (gc_heap_pad_size types_h_layout 1000) = some (p, g) →
      ∃ h, init_heap_bump_n_pop types_h_layout (malloc_at 4096) 3 1000 = .ok (some (p, h)))) :=
  ⟨by decide, ⟨_, rfl, rfl⟩,
    c15_variable_size_page_never_allocates types_h_layout (malloc_at 4096) no_nodes 3 1000
      (by decide)⟩

/-! ## The two definitions of `gc_heap_align` -/

/-- C16: the two definitions of `gc_heap_align` agree only on 32-bit-sized
inputs. For every `n`, the types.h definition (mask built from
`(unsigned int)-1`) and the gc-test.c definition (mask built from
`(uintptr_t)-1`) return the same value if and only if
`(n + 31) mod 2^64 < 2^32`; in every case the types.h value is the
gc-test.c value with its high 32 bits dropped, as at `n = 2^32` and
`n = 2^32 - 31`, where it is 0, while `n = 2^32 - 32` is the last input on which
the two still agree. -/
theorem c16_gc_heap_align_definitions_agree_iff (n : Nat) :
    (types_h.gc_heap_align n = gc_heap_align n ↔ (n + 31) % WORD_MOD < UINT_MOD) ∧
    types_h.gc_heap_align n = gc_heap_align n % UINT_MOD ∧
    gc_heap_align 4294967296 = 4294967296 ∧ types_h.gc_heap_align 4294967296 = 0 ∧
    gc_heap_align 4294967265 = 4294967296 ∧ types_h.gc_heap_align 4294967265 = 0 ∧
    gc_heap_align 4294967264 = 4294967264 ∧ types_h.gc_heap_align 4294967264 = 4294967264 := by
  refine ⟨?_, ?_, by decide, by decide, by decide, by decide, by decide, by decide⟩
  · rw [gc_heap_align_val, types_h_gc_heap_align_val]
    have hu : UINT_MOD = 4294967296 := rfl
    rw [hu]
    generalize (n + 31) % WORD_MOD = x
    constructor
    · intro h
      omega
    · intro h
      rw [Nat.mod_eq_of_lt h]
  · rw [gc_heap_align_val, types_h_gc_heap_align_val]
    have hu : UINT_MOD = 4294967296 := rfl
    rw [hu]
    omega

/-! ## Immediate characters -/

/-- C17: immediate characters round-trip through the pointer tagging. For
every `char` value `c`, whether `char` is signed or not,
`obj_obj2char(obj_char2obj(c)) = c`, `obj_is_char(obj_char2obj(c))` is non-zero,
so the object is a value type, and `is_object_type(obj_char2obj(c))` is false;
and `is_object_type(x)` holds exactly for the non-null `x` whose least
significant bit is 0. -/
theorem c17_char_tagging_roundtrip (char_signed : Bool) (c : Int)
    (hc : is_char char_signed c) :
    obj_obj2char char_signed (obj_char2obj c) = c ∧
    obj_is_char (obj_char2obj c) ≠ 0 ∧ is_value_type (obj_char2obj c) ≠ 0 ∧
    is_object_type (obj_char2obj c) = false ∧
    ∀ x, is_object_type x = true ↔ x ≠ 0 ∧ x % 2 = 0 := by
  have hrt : obj_obj2char char_signed (obj_char2obj c) = c ∧
      obj_is_char (obj_char2obj c) = 1 := by
    cases char_signed with
    | true =>
      have h : -128 ≤ c ∧ c ≤ 127 := by simpa [is_char] using hc
      exact obj_char_roundtrip_signed c h.1 h.2
    | false =>
      have h : 0 ≤ c ∧ c ≤ 255 := by simpa [is_char] using hc
      exact obj_char_roundtrip_unsigned c h.1 h.2
  obtain ⟨h1, h2⟩ := hrt
  have hne : obj_is_char (obj_char2obj c) ≠ 0 := by
    rw [h2]
    decide
  refine ⟨h1, hne, hne, ?_, ?_⟩
  · simp [is_object_type, is_value_type, h2]
  · intro x
    simp only [is_object_type, is_value_type, obj_is_char_eq_mod_two]
    simp

/-- C17, instances: the characters `a` (97) as a signed `char`, -1 as a signed
`char` and 255 as an unsigned `char`. -/
theorem c17_char_tagging_roundtrip_witness :
    (is_char true 97 ∧ obj_char2obj 97 = 195 ∧
      obj_obj2char true (obj_char2obj (-1)) = -1 ∧
      obj_obj2char false (obj_char2obj 255) = 255) ∧
    (obj_obj2char true (obj_char2obj 97) = 97 ∧
    obj_is_char (obj_char2obj 97) ≠ 0 ∧ is_value_type (obj_char2obj 97) ≠ 0 ∧
    is_object_type (obj_char2obj 97) = false ∧
    ∀ x, is_object_type x = true ↔ x ≠ 0 ∧ x % 2 = 0) :=
  ⟨⟨⟨by decide, by decide⟩, by decide, by decide, by decide⟩,
    c17_char_tagging_roundtrip true 97 ⟨by decide, by decide⟩⟩

/-! ## Primitives -/

/-- C18 (the code against the claim): the initializer
`{primitive_tag, #pname, fnc}` has no entry for the header, so `primitive_tag`
lands in `hdr.mark`, which is then 12 and outside the 2-bit colour range, `fnc`
lands in `tag`, and `pname` and `fn` stay null; `prim` holds of the object only
if the address of `fnc` happens to be 12. For the literal at 4198400 and the
function at 4202496 the tag is 4202496 and `prim` is false. -/
theorem c18_defprimitive_initializer_misses_header :
    (∀ pname_literal fnc,
      (defprimitive pname_literal fnc).hdr.mark = 12 ∧
      ¬ (defprimitive pname_literal fnc).hdr.mark < 4 ∧
      (defprimitive pname_literal fnc).tag = to_long fnc ∧
      (defprimitive pname_literal fnc).pname = 0 ∧
      (defprimitive pname_literal fnc).fn = 0 ∧
      ∀ x, prim x (defprimitive pname_literal fnc) = true → to_long fnc = primitive_tag) ∧
    defprimitive 4198400 4202496
      = { hdr := { mark := 12, grayed := 0 }, tag := 4202496, pname := 0, fn := 0 } ∧
    (defprimitive 4198400 4202496).tag ≠ primitive_tag ∧
    prim 6295552 (defprimitive 4198400 4202496) = false := by
  refine ⟨fun pname_literal fnc => ⟨rfl, ?_, rfl, rfl, rfl, ?_⟩, by decide, by decide,
    by decide⟩
  · intro h
    have h12 : (12 : Nat) < 4 := h
    omega
  · intro x hx
    simp only [prim, Bool.and_eq_true, decide_eq_true_eq] at hx
    exact hx.2

end Cyclone
